import Mathlib

/-!
Snapshot capture pipeline (`src/others/snapshot/lv_snapshot.c`).

A shallow embedding of the five public functions of `lv_snapshot.c`.

Conventions of the embedding:

* `lv_obj_t *` and `lv_display_t *` values are handles (`Nat`); a pointer that
  may be `NULL` is an `Option`.
* `int32_t` values are `Int`.  Signed overflow is undefined in C, so the model
  describes the executions in which the additions of lines 54-55, 67-68, 107
  and 122-123 stay inside the `int32_t` range.
* The memory the functions touch is the record `World`: the per-display
  `layer_head` slots, the refreshing-display global, the stack variable
  `layer` of `lv_snapshot_take_to_draw_buf`, the draw buffer the `draw_buf`
  argument points to, and an abstract remainder `ext` owned by the
  collaborators (layout results, rasteriser state).
* Every function of the library that is called but not defined in this file
  is a field of `Env`.  Calls with an effect are logged, in order, in a
  `List Call`.
* The two `while` loops take a fuel argument; `none` means the fuel ran out.
-/

namespace LvSnapshot

/-- Handle of a non-NULL `lv_obj_t *`. -/
abbrev Obj := Nat

/-- Handle of a non-NULL `lv_display_t *`. -/
abbrev Disp := Nat

/-- Result code `lv_result_t`. -/
inductive lv_result_t where
  | LV_RESULT_INVALID
  | LV_RESULT_OK
  deriving DecidableEq, Repr

/-- Modelled from the spec: the enum `lv_color_format_t` is declared in a header that is
not part of the sources.  The constructors are the enumerators the source file names
(`LV_COLOR_FORMAT_UNKNOWN` and the eleven `case` labels of the format gate); `other code`
stands for every remaining enumerator. -/
inductive lv_color_format_t where
  | LV_COLOR_FORMAT_UNKNOWN
  | LV_COLOR_FORMAT_RGB565
  | LV_COLOR_FORMAT_ARGB8565
  | LV_COLOR_FORMAT_RGB888
  | LV_COLOR_FORMAT_XRGB8888
  | LV_COLOR_FORMAT_ARGB8888
  | LV_COLOR_FORMAT_A8
  | LV_COLOR_FORMAT_L8
  | LV_COLOR_FORMAT_I1
  | LV_COLOR_FORMAT_ARGB2222
  | LV_COLOR_FORMAT_ARGB4444
  | LV_COLOR_FORMAT_ARGB1555
  | other (code : Nat)
  deriving DecidableEq, Repr

/-- The three post-draw event codes sent by the ancestor walk. -/
inductive lv_event_code_t where
  | LV_EVENT_DRAW_POST_BEGIN
  | LV_EVENT_DRAW_POST
  | LV_EVENT_DRAW_POST_END
  deriving DecidableEq, Repr

/-- The three diagnostics the file can log. -/
inductive LogMsg where
  | not_supported_color_format
  | deprecated_use_draw_buf_destroy
  | deprecated_use_take_to_draw_buf
  deriving DecidableEq, Repr

/-- The value of `LV_STRIDE_AUTO`. -/
def LV_STRIDE_AUTO : Nat := 0

/-- Rectangle `lv_area_t`, inclusive corners. -/
structure lv_area_t where
  x1 : Int
  y1 : Int
  x2 : Int
  y2 : Int
  deriving DecidableEq, Repr

/-- Image header: the part of `lv_image_header_t` the pipeline reads. -/
structure lv_image_header_t where
  cf : lv_color_format_t
  w : Int
  h : Int
  stride : Int
  flags : Nat
  deriving DecidableEq, Repr

/-- Draw buffer `lv_draw_buf_t`; `data` is the memory the `data` pointer refers to. -/
structure lv_draw_buf_t where
  header : lv_image_header_t
  data_size : Nat
  data : List Nat
  deriving DecidableEq, Repr

/-- Modelled from the spec: the legacy descriptor `lv_image_dsc_t` is declared outside the
sources; the spec describes it as the buffer descriptor without ownership of the pixels. -/
structure lv_image_dsc_t where
  header : lv_image_header_t
  data_size : Nat
  data : List Nat
  deriving DecidableEq, Repr

/-- What a `lv_layer_t *` can point to: the stack variable `layer` of the running capture,
or some layer that existed before the call. -/
inductive lv_layer_ref where
  | snapshot
  | other (id : Nat)
  deriving DecidableEq, Repr

/-- What a `lv_draw_buf_t *` stored in a layer can point to: the buffer of the capture. -/
inductive lv_draw_buf_ref where
  | target
  deriving DecidableEq, Repr

/-- Render layer `lv_layer_t`: the fields the pipeline writes or reads.
`draw_task_head` is the list of pending draw tasks (`NULL` is the empty list). -/
structure lv_layer_t where
  draw_buf : Option lv_draw_buf_ref
  buf_area : lv_area_t
  color_format : lv_color_format_t
  _clip_area : lv_area_t
  phy_clip_area : lv_area_t
  draw_task_head : List Nat
  deriving DecidableEq, Repr

/-- The memory the pipeline works on. -/
structure World (ε : Type) where
  layer_head : Disp → Option lv_layer_ref
  disp_refreshing : Option Disp
  layer : lv_layer_t
  draw_buf : lv_draw_buf_t
  ext : ε

/-- Logged library calls.  The layer argument of the render calls is always the address of
the stack variable `layer` and is left out. -/
inductive Call where
  | lv_obj_update_layout (obj : Obj)
  | lv_draw_buf_create (w h : Int) (cf : lv_color_format_t) (stride : Nat) (nonnull : Bool)
  | lv_draw_buf_reshape (cf : lv_color_format_t) (w h : Int) (stride : Nat)
  | lv_draw_buf_clear
  | lv_draw_buf_destroy
  | lv_draw_buf_init (w h : Int) (cf : lv_color_format_t) (stride : Nat) (data_size : Nat)
  | lv_obj_redraw (obj : Obj)
  | lv_obj_refr (obj : Obj)
  | lv_obj_send_event (obj : Obj) (code : lv_event_code_t)
  | lv_draw_dispatch_wait_for_request
  | lv_draw_dispatch
  | LV_LOG_WARN (msg : LogMsg)
  deriving DecidableEq, Repr

/-- The library functions the file calls.  The scene tree (`lv_obj_get_parent`, the
`children` arrays) is fixed for the duration of a call; layout resolution acts on `ext`;
the buffer functions act on the buffer they are given; the render, event and dispatch
functions may change any part of the world. -/
structure Env (ε : Type) where
  lv_obj_get_parent : Obj → Option Obj
  children : Obj → List Obj
  lv_obj_get_display : Obj → Disp
  lv_obj_update_layout : Obj → ε → ε
  lv_obj_get_width : ε → Obj → Int
  lv_obj_get_height : ε → Obj → Int
  lv_obj_get_ext_draw_size : ε → Obj → Int
  lv_obj_get_coords : ε → Obj → lv_area_t
  lv_refr_get_top_obj : ε → lv_area_t → Obj → Option Obj
  lv_draw_buf_create : Int → Int → lv_color_format_t → Nat → Option lv_draw_buf_t
  lv_draw_buf_reshape : lv_draw_buf_t → lv_color_format_t → Int → Int → Nat → lv_draw_buf_t × Bool
  lv_draw_buf_clear : lv_draw_buf_t → lv_draw_buf_t
  lv_draw_buf_init : Int → Int → lv_color_format_t → Nat → List Nat → Nat → lv_draw_buf_t
  lv_layer_init : lv_layer_t
  lv_obj_redraw : Obj → World ε → World ε
  lv_obj_refr : Obj → World ε → World ε
  lv_obj_send_event : Obj → lv_event_code_t → World ε → World ε
  lv_draw_dispatch_wait_for_request : World ε → World ε
  lv_draw_dispatch : World ε → World ε

/-- Outcome of a run that returned: return value, memory, and the calls made. -/
structure Run (ε : Type) (α : Type) where
  ret : α
  world : World ε
  trace : List Call

/-- Modelled from the spec: `lv_area_increase` is defined outside the sources; the spec
describes the snapshot area as the node bounds expanded by the margin on every side. -/
def lv_area_increase (a : lv_area_t) (w_extra h_extra : Int) : lv_area_t :=
  { x1 := a.x1 - w_extra, y1 := a.y1 - h_extra, x2 := a.x2 + w_extra, y2 := a.y2 + h_extra }

/-- Modelled from the spec: reads the currently-refreshing-display global. -/
def lv_refr_get_disp_refreshing {ε : Type} (w : World ε) : Option Disp :=
  w.disp_refreshing

/-- Modelled from the spec: writes the currently-refreshing-display global. -/
def lv_refr_set_disp_refreshing {ε : Type} (d : Option Disp) (w : World ε) : World ε :=
  { w with disp_refreshing := d }

/-- Lines 48-59. -/
def lv_snapshot_create_draw_buf {ε : Type} (env : Env ε) (obj : Obj) (cf : lv_color_format_t)
    (s : World ε) : Run ε (Option lv_draw_buf_t) :=
  let s1 : World ε := { s with ext := env.lv_obj_update_layout obj s.ext }
  let w := env.lv_obj_get_width s1.ext obj
  let h := env.lv_obj_get_height s1.ext obj
  let ext_size := env.lv_obj_get_ext_draw_size s1.ext obj
  let w := w + ext_size * 2
  let h := h + ext_size * 2
  if w = 0 ∨ h = 0 then
    { ret := none, world := s1, trace := [Call.lv_obj_update_layout obj] }
  else
    let b := env.lv_draw_buf_create w h cf LV_STRIDE_AUTO
    { ret := b, world := s1,
      trace := [Call.lv_obj_update_layout obj,
                Call.lv_draw_buf_create w h cf LV_STRIDE_AUTO b.isSome] }

/-- Lines 61-73. -/
def lv_snapshot_reshape_draw_buf {ε : Type} (env : Env ε) (obj : Obj) (s : World ε) :
    Run ε lv_result_t :=
  let s1 : World ε := { s with ext := env.lv_obj_update_layout obj s.ext }
  let w := env.lv_obj_get_width s1.ext obj
  let h := env.lv_obj_get_height s1.ext obj
  let ext_size := env.lv_obj_get_ext_draw_size s1.ext obj
  let w := w + ext_size * 2
  let h := h + ext_size * 2
  if w = 0 ∨ h = 0 then
    { ret := lv_result_t.LV_RESULT_INVALID, world := s1,
      trace := [Call.lv_obj_update_layout obj] }
  else
    let r := env.lv_draw_buf_reshape s1.draw_buf
      lv_color_format_t.LV_COLOR_FORMAT_UNKNOWN w h LV_STRIDE_AUTO
    { ret := if r.2 = false then lv_result_t.LV_RESULT_INVALID else lv_result_t.LV_RESULT_OK,
      world := { s1 with draw_buf := r.1 },
      trace := [Call.lv_obj_update_layout obj,
                Call.lv_draw_buf_reshape lv_color_format_t.LV_COLOR_FORMAT_UNKNOWN w h
                  LV_STRIDE_AUTO] }

/-- The `switch` of lines 81-97: `true` for the `case` labels that `break`, `false` for
`default`. -/
def cf_supported : lv_color_format_t → Bool
  | lv_color_format_t.LV_COLOR_FORMAT_RGB565 => true
  | lv_color_format_t.LV_COLOR_FORMAT_ARGB8565 => true
  | lv_color_format_t.LV_COLOR_FORMAT_RGB888 => true
  | lv_color_format_t.LV_COLOR_FORMAT_XRGB8888 => true
  | lv_color_format_t.LV_COLOR_FORMAT_ARGB8888 => true
  | lv_color_format_t.LV_COLOR_FORMAT_A8 => true
  | lv_color_format_t.LV_COLOR_FORMAT_L8 => true
  | lv_color_format_t.LV_COLOR_FORMAT_I1 => true
  | lv_color_format_t.LV_COLOR_FORMAT_ARGB2222 => true
  | lv_color_format_t.LV_COLOR_FORMAT_ARGB4444 => true
  | lv_color_format_t.LV_COLOR_FORMAT_ARGB1555 => true
  | _ => false

/-- The `for` loop of lines 149-158 over `parent->spec_attr->children[0 .. child_cnt-1]`,
given as a list whose length is the count `lv_obj_get_child_count` reports; `go` is the flag
of line 146. -/
def refr_after_border {ε : Type} (env : Env ε) (border_p : Obj) :
    List Obj → Bool → World ε → World ε × List Call
  | [], _, s => (s, [])
  | child :: rest, go, s =>
    if go = false then
      if child = border_p then refr_after_border env border_p rest true s
      else refr_after_border env border_p rest false s
    else
      let r := refr_after_border env border_p rest true (env.lv_obj_refr child s)
      (r.1, Call.lv_obj_refr child :: r.2)

/-- The three events of lines 161-163, sent to `parent`. -/
def post_draw_events (parent : Obj) : List Call :=
  [Call.lv_obj_send_event parent lv_event_code_t.LV_EVENT_DRAW_POST_BEGIN,
   Call.lv_obj_send_event parent lv_event_code_t.LV_EVENT_DRAW_POST,
   Call.lv_obj_send_event parent lv_event_code_t.LV_EVENT_DRAW_POST_END]

/-- The `while` loop of lines 145-170; one unit of fuel per iteration. -/
def ancestor_walk {ε : Type} (env : Env ε) (obj : Obj) :
    Nat → Option Obj → Obj → World ε → Option (World ε × List Call)
  | 0, parent, border_p, s =>
    if parent ≠ none ∧ border_p ≠ obj then none else some (s, [])
  | fuel + 1, parent, border_p, s =>
    match parent with
    | none => some (s, [])
    | some p =>
      if border_p = obj then some (s, [])
      else
        let r := refr_after_border env border_p (env.children p) false s
        let s1 := env.lv_obj_send_event p lv_event_code_t.LV_EVENT_DRAW_POST_BEGIN r.1
        let s2 := env.lv_obj_send_event p lv_event_code_t.LV_EVENT_DRAW_POST s1
        let s3 := env.lv_obj_send_event p lv_event_code_t.LV_EVENT_DRAW_POST_END s2
        match ancestor_walk env obj fuel (env.lv_obj_get_parent p) p s3 with
        | none => none
        | some r2 => some (r2.1, r.2 ++ post_draw_events p ++ r2.2)

/-- The `while` loop of lines 173-176; one unit of fuel per iteration. -/
def snapshot_drain {ε : Type} (env : Env ε) : Nat → World ε → Option (World ε × List Call)
  | 0, s => if s.layer.draw_task_head ≠ [] then none else some (s, [])
  | fuel + 1, s =>
    if s.layer.draw_task_head ≠ [] then
      let s1 := env.lv_draw_dispatch_wait_for_request s
      let s2 := env.lv_draw_dispatch s1
      match snapshot_drain env fuel s2 with
      | none => none
      | some r => some (r.1, Call.lv_draw_dispatch_wait_for_request :: Call.lv_draw_dispatch :: r.2)
    else some (s, [])

/-- State at line 134: the world with the layer installed, and the locals still in use. -/
structure Prepared (ε : Type) where
  world : World ε
  top_obj : Obj
  snapshot_area : lv_area_t
  disp_old : Option Disp
  disp_new : Disp
  layer_old : Option lv_layer_ref
  trace : List Call

/-- Lines 102-133, run on the world left by a successful reshape. -/
def snapshot_prepare {ε : Type} (env : Env ε) (obj : Obj) (cf : lv_color_format_t)
    (s : World ε) : Prepared ε :=
  let w := s.draw_buf.header.w
  let h := s.draw_buf.header.h
  let ext_size := env.lv_obj_get_ext_draw_size s.ext obj
  let snapshot_area := lv_area_increase (env.lv_obj_get_coords s.ext obj) ext_size ext_size
  let top := env.lv_refr_get_top_obj s.ext snapshot_area obj
  let s1 : World ε :=
    match top with
    | none => { s with draw_buf := env.lv_draw_buf_clear s.draw_buf }
    | some _ => s
  let top_obj : Obj :=
    match top with
    | none => obj
    | some t => t
  let layer : lv_layer_t :=
    { env.lv_layer_init with
      draw_buf := some lv_draw_buf_ref.target
      buf_area := { x1 := snapshot_area.x1, y1 := snapshot_area.y1,
                    x2 := snapshot_area.x1 + w - 1, y2 := snapshot_area.y1 + h - 1 }
      color_format := cf
      _clip_area := snapshot_area
      phy_clip_area := snapshot_area }
  let s2 : World ε := { s1 with layer := layer }
  let disp_old := lv_refr_get_disp_refreshing s2
  let disp_new := env.lv_obj_get_display obj
  let layer_old := s2.layer_head disp_new
  let s3 : World ε :=
    { s2 with layer_head := Function.update s2.layer_head disp_new (some lv_layer_ref.snapshot) }
  let s4 := lv_refr_set_disp_refreshing (some disp_new) s3
  { world := s4, top_obj := top_obj, snapshot_area := snapshot_area, disp_old := disp_old,
    disp_new := disp_new, layer_old := layer_old,
    trace := match top with
      | none => [Call.lv_draw_buf_clear]
      | some _ => [] }

/-- Lines 135-171. -/
def snapshot_render {ε : Type} (env : Env ε) (fuel : Nat) (obj top_obj : Obj) (s : World ε) :
    Option (World ε × List Call) :=
  if top_obj = obj then
    some (env.lv_obj_redraw top_obj s, [Call.lv_obj_redraw top_obj])
  else
    match ancestor_walk env obj fuel (env.lv_obj_get_parent top_obj) top_obj
        (env.lv_obj_refr top_obj s) with
    | none => none
    | some r => some (r.1, Call.lv_obj_refr top_obj :: r.2)

/-- Lines 178-179: the saved layer goes back into the `layer_head` slot of `disp_new` and
the saved display becomes the refreshing display again. -/
def snapshot_restore {ε : Type} (p : Prepared ε) (s : World ε) : World ε :=
  let s1 : World ε :=
    { s with layer_head := Function.update s.layer_head p.disp_new p.layer_old }
  lv_refr_set_disp_refreshing p.disp_old s1

/-- Lines 75-182. -/
def lv_snapshot_take_to_draw_buf {ε : Type} (env : Env ε) (fuel : Nat) (obj : Obj)
    (cf : lv_color_format_t) (s : World ε) : Option (Run ε lv_result_t) :=
  if cf_supported cf = false then
    some { ret := lv_result_t.LV_RESULT_INVALID, world := s,
           trace := [Call.LV_LOG_WARN LogMsg.not_supported_color_format] }
  else
    let res := lv_snapshot_reshape_draw_buf env obj s
    if res.ret ≠ lv_result_t.LV_RESULT_OK then some res
    else
      let p := snapshot_prepare env obj cf res.world
      match snapshot_render env fuel obj p.top_obj p.world with
      | none => none
      | some rr =>
        match snapshot_drain env fuel rr.1 with
        | none => none
        | some dr =>
          some { ret := lv_result_t.LV_RESULT_OK, world := snapshot_restore p dr.1,
                 trace := res.trace ++ p.trace ++ rr.2 ++ dr.2 }

/-- Lines 184-196.  The created buffer becomes the buffer of the world; the return value is
the buffer as the capture left it, or `none` for `NULL`. -/
def lv_snapshot_take {ε : Type} (env : Env ε) (fuel : Nat) (obj : Obj)
    (cf : lv_color_format_t) (s : World ε) : Option (Run ε (Option lv_draw_buf_t)) :=
  let c := lv_snapshot_create_draw_buf env obj cf s
  match c.ret with
  | none => some { ret := none, world := c.world, trace := c.trace }
  | some b =>
    match lv_snapshot_take_to_draw_buf env fuel obj cf { c.world with draw_buf := b } with
    | none => none
    | some r =>
      if r.ret ≠ lv_result_t.LV_RESULT_OK then
        some { ret := none, world := r.world,
               trace := c.trace ++ r.trace ++ [Call.lv_draw_buf_destroy] }
      else
        some { ret := some r.world.draw_buf, world := r.world, trace := c.trace ++ r.trace }

/-- Lines 198-202. -/
def lv_snapshot_free {ε : Type} (s : World ε) : Run ε Unit :=
  { ret := (), world := s,
    trace := [Call.LV_LOG_WARN LogMsg.deprecated_use_draw_buf_destroy, Call.lv_draw_buf_destroy] }

/-- The `lv_memcpy` of line 213: the leading `sizeof(lv_image_dsc_t)` bytes of the buffer. -/
def dsc_of_draw_buf (b : lv_draw_buf_t) : lv_image_dsc_t :=
  { header := b.header, data_size := b.data_size, data := b.data }

/-- Lines 204-216.  The local `draw_buf` is the buffer of the world during the call; the
return value pairs the result with the descriptor of the caller as it is on return. -/
def lv_snapshot_take_to_buf {ε : Type} (env : Env ε) (fuel : Nat) (obj : Obj)
    (cf : lv_color_format_t) (dsc : lv_image_dsc_t) (buf : List Nat) (buf_size : Nat)
    (s : World ε) : Option (Run ε (lv_result_t × lv_image_dsc_t)) :=
  let draw_buf := env.lv_draw_buf_init 1 1 cf buf_size buf buf_size
  match lv_snapshot_take_to_draw_buf env fuel obj cf { s with draw_buf := draw_buf } with
  | none => none
  | some r =>
    some { ret := (r.ret, if r.ret = lv_result_t.LV_RESULT_OK then dsc_of_draw_buf r.world.draw_buf
                          else dsc),
           world := r.world,
           trace := Call.LV_LOG_WARN LogMsg.deprecated_use_take_to_draw_buf ::
                    Call.lv_draw_buf_init 1 1 cf buf_size buf_size :: r.trace }

/-! ## Reference definitions used to state the properties -/

/-- The formats accepted by the gate, as the list of `case` labels. -/
def accepted_formats : List lv_color_format_t :=
  [lv_color_format_t.LV_COLOR_FORMAT_RGB565, lv_color_format_t.LV_COLOR_FORMAT_ARGB8565,
   lv_color_format_t.LV_COLOR_FORMAT_RGB888, lv_color_format_t.LV_COLOR_FORMAT_XRGB8888,
   lv_color_format_t.LV_COLOR_FORMAT_ARGB8888, lv_color_format_t.LV_COLOR_FORMAT_A8,
   lv_color_format_t.LV_COLOR_FORMAT_L8, lv_color_format_t.LV_COLOR_FORMAT_I1,
   lv_color_format_t.LV_COLOR_FORMAT_ARGB2222, lv_color_format_t.LV_COLOR_FORMAT_ARGB4444,
   lv_color_format_t.LV_COLOR_FORMAT_ARGB1555]

/-- Render calls: subtree redraw, subtree refresh and event dispatch. -/
def is_render_call : Call → Bool
  | Call.lv_obj_redraw _ => true
  | Call.lv_obj_refr _ => true
  | Call.lv_obj_send_event _ _ => true
  | _ => false

/-- Post-draw hook calls. -/
def is_hook_call : Call → Bool
  | Call.lv_obj_send_event _ _ => true
  | _ => false

/-- Subtree refresh calls. -/
def is_refr_call : Call → Bool
  | Call.lv_obj_refr _ => true
  | _ => false

/-- The render calls of a trace, in order. -/
def render_calls (t : List Call) : List Call := t.filter is_render_call

/-- The hook calls of a trace, in order. -/
def hook_calls (t : List Call) : List Call := t.filter is_hook_call

/-- Buffers created minus buffers destroyed along a trace. -/
def buf_balance : List Call → Int
  | [] => 0
  | Call.lv_draw_buf_create _ _ _ _ true :: t => buf_balance t + 1
  | Call.lv_draw_buf_destroy :: t => buf_balance t - 1
  | _ :: t => buf_balance t

/-- Number of `lv_draw_buf_destroy` calls in a trace. -/
def destroy_count (t : List Call) : Nat := t.count Call.lv_draw_buf_destroy

/-- The list `ps` is the parent chain above `o`, bottom-up, ending with `obj` when `obj` is
an ancestor of `o` (or `o` itself, with the empty chain) and with the root otherwise. -/
def is_parent_chain {ε : Type} (env : Env ε) (obj : Obj) : Obj → List Obj → Bool
  | o, [] => decide (o = obj ∨ env.lv_obj_get_parent o = none)
  | o, p :: ps =>
    decide (o ≠ obj) && decide (env.lv_obj_get_parent o = some p) && is_parent_chain env obj p ps

/-- The children placed after the first occurrence of `border_p`: the entries whose index
exceeds the index of `border_p`. -/
def younger_siblings (children : List Obj) (border_p : Obj) : List Obj :=
  children.drop (children.indexOf border_p + 1)

/-- Calls expected of one level of the walk: refresh of the younger siblings in child
order, then the three post-draw events of the parent. -/
def level_calls {ε : Type} (env : Env ε) (border_p parent : Obj) : List Call :=
  (younger_siblings (env.children parent) border_p).map Call.lv_obj_refr ++
    post_draw_events parent

/-- Calls expected of the walk along a parent chain, starting with `border_p`. -/
def walk_calls {ε : Type} (env : Env ε) : Obj → List Obj → List Call
  | _, [] => []
  | border_p, p :: ps => level_calls env border_p p ++ walk_calls env p ps

/-- Allocator calls that change the number of live buffers. -/
def is_alloc_call : Call → Bool
  | Call.lv_draw_buf_create _ _ _ _ _ => true
  | Call.lv_draw_buf_destroy => true
  | _ => false

/-- The answer of `lv_refr_get_top_obj` during a capture of `obj` started in `s`: it is asked
after layout resolution, with the node bounds grown by the margin. -/
def resolver_answer {ε : Type} (env : Env ε) (obj : Obj) (s : World ε) : Option Obj :=
  let e := env.lv_obj_update_layout obj s.ext
  env.lv_refr_get_top_obj e
    (lv_area_increase (env.lv_obj_get_coords e obj) (env.lv_obj_get_ext_draw_size e obj)
      (env.lv_obj_get_ext_draw_size e obj)) obj

/-- The post-draw events expected along a parent chain. -/
def chain_hooks : List Obj → List Call
  | [] => []
  | p :: ps => post_draw_events p ++ chain_hooks ps

/-- The render, event and dispatch functions leave the observation `f` of the world
unchanged. -/
def Preserves {ε α : Type} (env : Env ε) (f : World ε → α) : Prop :=
  (∀ o s, f (env.lv_obj_redraw o s) = f s) ∧
  (∀ o s, f (env.lv_obj_refr o s) = f s) ∧
  (∀ o e s, f (env.lv_obj_send_event o e s) = f s) ∧
  (∀ s, f (env.lv_draw_dispatch_wait_for_request s) = f s) ∧
  (∀ s, f (env.lv_draw_dispatch s) = f s)

/-- The scene tree has no cycle: some depth function decreases from child to parent. -/
def Acyclic {ε : Type} (env : Env ε) : Prop :=
  ∃ depth : Obj → Nat, ∀ o p, env.lv_obj_get_parent o = some p → depth p < depth o

/-- Every dispatch cycle started with pending tasks leaves fewer of them. -/
def DispatchProgress {ε : Type} (env : Env ε) : Prop :=
  ∀ s : World ε, s.layer.draw_task_head ≠ [] →
    (env.lv_draw_dispatch (env.lv_draw_dispatch_wait_for_request s)).layer.draw_task_head.length
      < s.layer.draw_task_head.length

/-! ## A concrete scene -/

/-- Parents of the example scene: screen 0, object 1 on it, objects 2, 3, 4 in 1 and
objects 5, 6 in 3. -/
def demo_parent : Obj → Option Obj
  | 1 => some 0
  | 2 => some 1
  | 3 => some 1
  | 4 => some 1
  | 5 => some 3
  | 6 => some 3
  | _ => none

/-- Child arrays of the example scene. -/
def demo_children : Obj → List Obj
  | 0 => [1]
  | 1 => [2, 3, 4]
  | 3 => [5, 6]
  | _ => []

/-- Modelled from the spec: the pixel size of a format is computed outside the sources;
the values are those of the 8-, 16-, 24- and 32-bit encodings the gate names. -/
def demo_px_size : lv_color_format_t → Int
  | lv_color_format_t.LV_COLOR_FORMAT_A8 => 1
  | lv_color_format_t.LV_COLOR_FORMAT_L8 => 1
  | lv_color_format_t.LV_COLOR_FORMAT_ARGB2222 => 1
  | lv_color_format_t.LV_COLOR_FORMAT_RGB565 => 2
  | lv_color_format_t.LV_COLOR_FORMAT_ARGB4444 => 2
  | lv_color_format_t.LV_COLOR_FORMAT_ARGB1555 => 2
  | lv_color_format_t.LV_COLOR_FORMAT_RGB888 => 3
  | lv_color_format_t.LV_COLOR_FORMAT_ARGB8565 => 3
  | _ => 4

/-- Modelled from the spec: `lv_draw_buf_create` is defined outside the sources; the
allocator of the spec hands out a buffer of the requested width, height and format whose stride covers
one row.  This instance allocates whenever both sizes are positive. -/
def demo_create (w h : Int) (cf : lv_color_format_t) (_stride : Nat) : Option lv_draw_buf_t :=
  if 0 < w ∧ 0 < h then
    some { header := { cf := cf, w := w, h := h, stride := w * demo_px_size cf, flags := 0 },
           data_size := (w * demo_px_size cf * h).toNat, data := [] }
  else none

/-- Modelled from the spec: `lv_draw_buf_reshape` is defined outside the sources; the
reshape of the spec reuses the storage of the buffer when it can and leaves the format unconstrained.
This instance keeps the format when asked for the unknown one, fails when the new shape
needs more bytes than the buffer has, and otherwise rewrites width, height and stride in
place. -/
def demo_reshape (b : lv_draw_buf_t) (cf : lv_color_format_t) (w h : Int) (_stride : Nat) :
    lv_draw_buf_t × Bool :=
  let cf1 := if cf = lv_color_format_t.LV_COLOR_FORMAT_UNKNOWN then b.header.cf else cf
  let stride := w * demo_px_size cf1
  if (b.data_size : Int) < stride * h then (b, false)
  else ({ b with header := { b.header with cf := cf1, w := w, h := h, stride := stride } }, true)

/-- Modelled from the spec: `lv_draw_buf_init` is defined outside the sources; the
legacy wrapper of the spec is a buffer descriptor over memory the caller keeps owning.  This instance
stores the arguments in the descriptor. -/
def demo_buf_init (w h : Int) (cf : lv_color_format_t) (stride : Nat) (data : List Nat)
    (data_size : Nat) : lv_draw_buf_t :=
  { header := { cf := cf, w := w, h := h, stride := stride, flags := 0 },
    data_size := data_size, data := data }

/-- Example layer initial value. -/
def demo_layer : lv_layer_t :=
  { draw_buf := none, buf_area := ⟨0, 0, 0, 0⟩,
    color_format := lv_color_format_t.LV_COLOR_FORMAT_UNKNOWN,
    _clip_area := ⟨0, 0, 0, 0⟩, phy_clip_area := ⟨0, 0, 0, 0⟩, draw_task_head := [] }

/-- Example render call: queues one draw task for the object on the layer. -/
def demo_queue (obj : Obj) (s : World Nat) : World Nat :=
  { s with layer := { s.layer with draw_task_head := s.layer.draw_task_head ++ [obj] } }

/-- Example dispatch cycle: completes the first pending task. -/
def demo_dispatch (s : World Nat) : World Nat :=
  { s with layer := { s.layer with draw_task_head := s.layer.draw_task_head.tail },
           draw_buf := { s.draw_buf with data := s.draw_buf.data ++ s.layer.draw_task_head.take 1 } }

/-- Example collaborators: every object has resolved size `W` by `H`, margin `M`, top-left
corner (10, 20) and lives on display 0; the resolver answers `top`; `ext` counts the layout
passes. -/
def demoEnv (W H M : Int) (top : Option Obj) : Env Nat :=
  { lv_obj_get_parent := demo_parent
    children := demo_children
    lv_obj_get_display := fun _ => 0
    lv_obj_update_layout := fun _ e => e + 1
    lv_obj_get_width := fun _ _ => W
    lv_obj_get_height := fun _ _ => H
    lv_obj_get_ext_draw_size := fun _ _ => M
    lv_obj_get_coords := fun _ _ => ⟨10, 20, 10 + W - 1, 20 + H - 1⟩
    lv_refr_get_top_obj := fun _ _ _ => top
    lv_draw_buf_create := demo_create
    lv_draw_buf_reshape := demo_reshape
    lv_draw_buf_clear := fun b => { b with data := [] }
    lv_draw_buf_init := demo_buf_init
    lv_layer_init := demo_layer
    lv_obj_redraw := demo_queue
    lv_obj_refr := demo_queue
    lv_obj_send_event := fun _ _ s => s
    lv_draw_dispatch_wait_for_request := fun s => s
    lv_draw_dispatch := demo_dispatch }

/-- Example memory: display 0 shows layer 7 and display 3 is being refreshed; the supplied
buffer has 4096 bytes of 8-bit alpha. -/
def demoWorld : World Nat :=
  { layer_head := fun d => if d = 0 then some (lv_layer_ref.other 7) else none
    disp_refreshing := some 3
    layer := demo_layer
    draw_buf := demo_buf_init 1 1 lv_color_format_t.LV_COLOR_FORMAT_A8 4096 [] 4096
    ext := 0 }

/-- Example legacy descriptor before the call. -/
def demoDsc : lv_image_dsc_t :=
  { header := { cf := lv_color_format_t.LV_COLOR_FORMAT_UNKNOWN, w := 0, h := 0, stride := 0,
                flags := 0 },
    data_size := 0, data := [] }

/-- Example memory at the start of the capture run by the legacy entry point on a 63-byte
block. -/
def demoLegacyWorld : World Nat :=
  { demoWorld with
    draw_buf := demo_buf_init 1 1 lv_color_format_t.LV_COLOR_FORMAT_L8 63 (List.replicate 63 0) 63 }

/-! ## Theorems -/

/-! ### The format gate -/

theorem cf_supported_iff (cf : lv_color_format_t) :
    cf_supported cf = true ↔ cf ∈ accepted_formats := by
  cases cf <;> simp [cf_supported, accepted_formats]

theorem take_to_draw_buf_of_unsupported {ε : Type} (env : Env ε) (fuel : Nat) (obj : Obj)
    (cf : lv_color_format_t) (s : World ε) (h : cf_supported cf = false) :
    lv_snapshot_take_to_draw_buf env fuel obj cf s =
      some { ret := lv_result_t.LV_RESULT_INVALID, world := s,
             trace := [Call.LV_LOG_WARN LogMsg.not_supported_color_format] } := by
  simp [lv_snapshot_take_to_draw_buf, h]

/-! ### Buffer sizing -/

theorem create_draw_buf_of_zero {ε : Type} (env : Env ε) (obj : Obj) (cf : lv_color_format_t)
    (s : World ε)
    (hz : env.lv_obj_get_width (env.lv_obj_update_layout obj s.ext) obj +
            env.lv_obj_get_ext_draw_size (env.lv_obj_update_layout obj s.ext) obj * 2 = 0 ∨
          env.lv_obj_get_height (env.lv_obj_update_layout obj s.ext) obj +
            env.lv_obj_get_ext_draw_size (env.lv_obj_update_layout obj s.ext) obj * 2 = 0) :
    lv_snapshot_create_draw_buf env obj cf s =
      { ret := none, world := { s with ext := env.lv_obj_update_layout obj s.ext },
        trace := [Call.lv_obj_update_layout obj] } := by
  simp only [lv_snapshot_create_draw_buf]
  rw [if_pos hz]

theorem reshape_draw_buf_of_zero {ε : Type} (env : Env ε) (obj : Obj) (s : World ε)
    (hz : env.lv_obj_get_width (env.lv_obj_update_layout obj s.ext) obj +
            env.lv_obj_get_ext_draw_size (env.lv_obj_update_layout obj s.ext) obj * 2 = 0 ∨
          env.lv_obj_get_height (env.lv_obj_update_layout obj s.ext) obj +
            env.lv_obj_get_ext_draw_size (env.lv_obj_update_layout obj s.ext) obj * 2 = 0) :
    lv_snapshot_reshape_draw_buf env obj s =
      { ret := lv_result_t.LV_RESULT_INVALID,
        world := { s with ext := env.lv_obj_update_layout obj s.ext },
        trace := [Call.lv_obj_update_layout obj] } := by
  simp only [lv_snapshot_reshape_draw_buf]
  rw [if_pos hz]

theorem reshape_draw_buf_of_nonzero {ε : Type} (env : Env ε) (obj : Obj) (s : World ε)
    (hz : ¬ (env.lv_obj_get_width (env.lv_obj_update_layout obj s.ext) obj +
            env.lv_obj_get_ext_draw_size (env.lv_obj_update_layout obj s.ext) obj * 2 = 0 ∨
          env.lv_obj_get_height (env.lv_obj_update_layout obj s.ext) obj +
            env.lv_obj_get_ext_draw_size (env.lv_obj_update_layout obj s.ext) obj * 2 = 0)) :
    lv_snapshot_reshape_draw_buf env obj s =
      { ret := if (env.lv_draw_buf_reshape s.draw_buf lv_color_format_t.LV_COLOR_FORMAT_UNKNOWN
                  (env.lv_obj_get_width (env.lv_obj_update_layout obj s.ext) obj +
                    env.lv_obj_get_ext_draw_size (env.lv_obj_update_layout obj s.ext) obj * 2)
                  (env.lv_obj_get_height (env.lv_obj_update_layout obj s.ext) obj +
                    env.lv_obj_get_ext_draw_size (env.lv_obj_update_layout obj s.ext) obj * 2)
                  LV_STRIDE_AUTO).2 = false
               then lv_result_t.LV_RESULT_INVALID else lv_result_t.LV_RESULT_OK,
        world := { s with
          ext := env.lv_obj_update_layout obj s.ext
          draw_buf := (env.lv_draw_buf_reshape s.draw_buf
            lv_color_format_t.LV_COLOR_FORMAT_UNKNOWN
            (env.lv_obj_get_width (env.lv_obj_update_layout obj s.ext) obj +
              env.lv_obj_get_ext_draw_size (env.lv_obj_update_layout obj s.ext) obj * 2)
            (env.lv_obj_get_height (env.lv_obj_update_layout obj s.ext) obj +
              env.lv_obj_get_ext_draw_size (env.lv_obj_update_layout obj s.ext) obj * 2)
            LV_STRIDE_AUTO).1 },
        trace := [Call.lv_obj_update_layout obj,
          Call.lv_draw_buf_reshape lv_color_format_t.LV_COLOR_FORMAT_UNKNOWN
            (env.lv_obj_get_width (env.lv_obj_update_layout obj s.ext) obj +
              env.lv_obj_get_ext_draw_size (env.lv_obj_update_layout obj s.ext) obj * 2)
            (env.lv_obj_get_height (env.lv_obj_update_layout obj s.ext) obj +
              env.lv_obj_get_ext_draw_size (env.lv_obj_update_layout obj s.ext) obj * 2)
            LV_STRIDE_AUTO] } := by
  simp only [lv_snapshot_reshape_draw_buf]
  rw [if_neg hz]

/-! ### The three ways `lv_snapshot_take_to_draw_buf` returns -/

theorem take_to_draw_buf_cases {ε : Type} (env : Env ε) (fuel : Nat) (obj : Obj)
    (cf : lv_color_format_t) (s : World ε) (r : Run ε lv_result_t)
    (hr : lv_snapshot_take_to_draw_buf env fuel obj cf s = some r) :
    (cf_supported cf = false ∧
      r = { ret := lv_result_t.LV_RESULT_INVALID, world := s,
            trace := [Call.LV_LOG_WARN LogMsg.not_supported_color_format] }) ∨
    (cf_supported cf = true ∧
      (lv_snapshot_reshape_draw_buf env obj s).ret ≠ lv_result_t.LV_RESULT_OK ∧
      r = lv_snapshot_reshape_draw_buf env obj s) ∨
    (cf_supported cf = true ∧
      (lv_snapshot_reshape_draw_buf env obj s).ret = lv_result_t.LV_RESULT_OK ∧
      ∃ rr dr,
        snapshot_render env fuel obj
          (snapshot_prepare env obj cf (lv_snapshot_reshape_draw_buf env obj s).world).top_obj
          (snapshot_prepare env obj cf (lv_snapshot_reshape_draw_buf env obj s).world).world
            = some rr ∧
        snapshot_drain env fuel rr.1 = some dr ∧
        r = { ret := lv_result_t.LV_RESULT_OK,
              world := snapshot_restore
                (snapshot_prepare env obj cf (lv_snapshot_reshape_draw_buf env obj s).world) dr.1,
              trace := (lv_snapshot_reshape_draw_buf env obj s).trace ++
                (snapshot_prepare env obj cf (lv_snapshot_reshape_draw_buf env obj s).world).trace
                ++ rr.2 ++ dr.2 }) := by
  cases hcf : cf_supported cf with
  | false =>
    rw [take_to_draw_buf_of_unsupported env fuel obj cf s hcf] at hr
    exact Or.inl ⟨rfl, (Option.some.inj hr).symm⟩
  | true =>
    right
    unfold lv_snapshot_take_to_draw_buf at hr
    rw [if_neg (by simp [hcf])] at hr
    by_cases hres : (lv_snapshot_reshape_draw_buf env obj s).ret = lv_result_t.LV_RESULT_OK
    · right
      simp only [ne_eq, hres, not_true_eq_false, if_false] at hr
      cases hrr : snapshot_render env fuel obj
          (snapshot_prepare env obj cf (lv_snapshot_reshape_draw_buf env obj s).world).top_obj
          (snapshot_prepare env obj cf (lv_snapshot_reshape_draw_buf env obj s).world).world with
      | none => rw [hrr] at hr; exact absurd hr (by simp)
      | some rr =>
        rw [hrr] at hr
        cases hdr : snapshot_drain env fuel rr.1 with
        | none => simp [hdr] at hr
        | some dr =>
          simp only [hdr] at hr
          exact ⟨rfl, hres, rr, dr, rfl, hdr, (Option.some.inj hr).symm⟩
    · left
      simp only [ne_eq, hres, not_false_eq_true, if_true] at hr
      exact ⟨rfl, hres, (Option.some.inj hr).symm⟩

theorem reshape_trace_head {ε : Type} (env : Env ε) (obj : Obj) (s : World ε) :
    ∃ t, (lv_snapshot_reshape_draw_buf env obj s).trace = Call.lv_obj_update_layout obj :: t := by
  simp only [lv_snapshot_reshape_draw_buf]
  split
  · exact ⟨_, rfl⟩
  · exact ⟨_, rfl⟩

/-! ### Calls made by the loops -/

theorem refr_after_border_calls {ε : Type} (env : Env ε) (border_p : Obj) :
    ∀ (l : List Obj) (go : Bool) (s : World ε),
      (refr_after_border env border_p l go s).2 =
        (if go = true then l else younger_siblings l border_p).map Call.lv_obj_refr := by
  intro l
  induction l with
  | nil => intro go s; cases go <;> simp [refr_after_border, younger_siblings]
  | cons child rest ih =>
    intro go s
    cases go with
    | true =>
      simp only [refr_after_border, Bool.true_eq_false, if_false, if_true, List.map_cons]
      rw [ih]
      simp
    | false =>
      simp only [refr_after_border, if_true, Bool.false_eq_true, if_false]
      by_cases hc : child = border_p
      · rw [if_pos hc, ih]
        simp [younger_siblings, List.indexOf_cons_eq _ hc]
      · rw [if_neg hc, ih]
        simp [younger_siblings, List.indexOf_cons_ne _ hc]

theorem ancestor_walk_calls {ε : Type} (env : Env ε) (obj : Obj) :
    ∀ (fuel : Nat) (border_p : Obj) (s : World ε) (ps : List Obj) (r : World ε × List Call),
      is_parent_chain env obj border_p ps = true →
      ancestor_walk env obj fuel (env.lv_obj_get_parent border_p) border_p s = some r →
      r.2 = walk_calls env border_p ps := by
  intro fuel
  induction fuel with
  | zero =>
    intro b s ps r hch hw
    simp only [ancestor_walk] at hw
    split at hw
    · exact absurd hw (by simp)
    · rename_i hcond
      cases ps with
      | nil => cases hw; rfl
      | cons p ps =>
        simp only [is_parent_chain, Bool.and_eq_true, decide_eq_true_eq] at hch
        exact absurd ⟨by rw [hch.1.2]; simp, hch.1.1⟩ hcond
  | succ n ih =>
    intro b s ps r hch hw
    cases ps with
    | nil =>
      simp only [is_parent_chain, decide_eq_true_eq] at hch
      rcases hch with hb | hp
      · cases hpar : env.lv_obj_get_parent b with
        | none => rw [hpar] at hw; simp only [ancestor_walk] at hw; cases hw; rfl
        | some p =>
          rw [hpar] at hw
          simp only [ancestor_walk, hb, if_true] at hw
          cases hw; rfl
      · rw [hp] at hw; simp only [ancestor_walk] at hw; cases hw; rfl
    | cons p ps =>
      simp only [is_parent_chain, Bool.and_eq_true, decide_eq_true_eq] at hch
      obtain ⟨⟨hne, hpar⟩, hrest⟩ := hch
      rw [hpar] at hw
      simp only [ancestor_walk, hne, if_false] at hw
      split at hw
      · exact absurd hw (by simp)
      · rename_i r2 hr2
        cases hw
        have := ih p _ ps r2 hrest hr2
        simp only [walk_calls, level_calls, this, refr_after_border_calls]
        simp

theorem ancestor_walk_calls_mem {ε : Type} (env : Env ε) (obj : Obj) :
    ∀ (fuel : Nat) (parent : Option Obj) (border_p : Obj) (s : World ε)
      (r : World ε × List Call),
      ancestor_walk env obj fuel parent border_p s = some r →
      ∀ c ∈ r.2, (∃ o, c = Call.lv_obj_refr o) ∨ (∃ o e, c = Call.lv_obj_send_event o e) := by
  intro fuel
  induction fuel with
  | zero =>
    intro parent b s r hw c hc
    simp only [ancestor_walk] at hw
    split at hw
    · exact absurd hw (by simp)
    · cases hw; simp at hc
  | succ n ih =>
    intro parent b s r hw c hc
    cases parent with
    | none => simp only [ancestor_walk] at hw; cases hw; simp at hc
    | some p =>
      simp only [ancestor_walk] at hw
      split at hw
      · cases hw; simp at hc
      · split at hw
        · exact absurd hw (by simp)
        · rename_i r2 hr2
          cases hw
          simp only [List.mem_append, refr_after_border_calls, List.mem_map] at hc
          rcases hc with (⟨o, _, ho⟩ | hc) | hc
          · exact Or.inl ⟨o, ho.symm⟩
          · simp only [post_draw_events, List.mem_cons, List.mem_singleton] at hc
            right
            rcases hc with h | h | h | h
            · exact ⟨_, _, h⟩
            · exact ⟨_, _, h⟩
            · exact ⟨_, _, h⟩
            · simp at h
          · exact ih _ _ _ _ hr2 c hc

theorem snapshot_drain_calls_mem {ε : Type} (env : Env ε) :
    ∀ (fuel : Nat) (s : World ε) (r : World ε × List Call),
      snapshot_drain env fuel s = some r →
      ∀ c ∈ r.2, c = Call.lv_draw_dispatch_wait_for_request ∨ c = Call.lv_draw_dispatch := by
  intro fuel
  induction fuel with
  | zero =>
    intro s r hd c hc
    simp only [snapshot_drain] at hd
    split at hd
    · exact absurd hd (by simp)
    · cases hd; simp at hc
  | succ n ih =>
    intro s r hd c hc
    simp only [snapshot_drain] at hd
    split at hd
    · split at hd
      · exact absurd hd (by simp)
      · rename_i r2 hr2
        cases hd
        simp only [List.mem_cons] at hc
        rcases hc with h | h | h
        · exact Or.inl h
        · exact Or.inr h
        · exact ih _ _ hr2 c h
    · cases hd; simp at hc

/-! ### Termination of the loops -/

theorem ancestor_walk_mono {ε : Type} (env : Env ε) (obj : Obj) :
    ∀ (fuel : Nat) (parent : Option Obj) (border_p : Obj) (s : World ε)
      (r : World ε × List Call),
      ancestor_walk env obj fuel parent border_p s = some r →
      ancestor_walk env obj (fuel + 1) parent border_p s = some r := by
  intro fuel
  induction fuel with
  | zero =>
    intro parent b s r hw
    simp only [ancestor_walk] at hw
    split at hw
    · exact absurd hw (by simp)
    · rename_i hcond
      cases parent with
      | none => simpa [ancestor_walk] using hw
      | some p =>
        have hb : b = obj := by
          by_contra hb
          exact hcond ⟨by simp, hb⟩
        simpa [ancestor_walk, hb] using hw
  | succ n ih =>
    intro parent b s r hw
    cases parent with
    | none => simpa [ancestor_walk] using hw
    | some p =>
      rw [ancestor_walk] at hw ⊢
      simp only at hw ⊢
      split at hw
      · rename_i hb
        rw [if_pos hb]
        exact hw
      · rename_i hb
        rw [if_neg hb]
        split at hw
        · exact absurd hw (by simp)
        · rename_i r2 hr2
          rw [ih _ _ _ _ hr2]
          exact hw

theorem ancestor_walk_mono_le {ε : Type} (env : Env ε) (obj : Obj) (fuel fuel2 : Nat)
    (parent : Option Obj) (border_p : Obj) (s : World ε) (r : World ε × List Call)
    (hle : fuel ≤ fuel2) (hw : ancestor_walk env obj fuel parent border_p s = some r) :
    ancestor_walk env obj fuel2 parent border_p s = some r := by
  induction hle with
  | refl => exact hw
  | step _ ih => exact ancestor_walk_mono env obj _ _ _ _ _ ih

theorem ancestor_walk_returns {ε : Type} (env : Env ε) (obj : Obj) (depth : Obj → Nat)
    (hd : ∀ o p, env.lv_obj_get_parent o = some p → depth p < depth o) :
    ∀ (fuel : Nat) (border_p : Obj) (s : World ε), depth border_p ≤ fuel →
      ∃ r, ancestor_walk env obj fuel (env.lv_obj_get_parent border_p) border_p s = some r := by
  intro fuel
  induction fuel with
  | zero =>
    intro b s hb
    cases hpar : env.lv_obj_get_parent b with
    | none => exact ⟨(s, []), by simp [ancestor_walk]⟩
    | some p => have := hd b p hpar; omega
  | succ n ih =>
    intro b s hb
    cases hpar : env.lv_obj_get_parent b with
    | none => exact ⟨(s, []), by simp [ancestor_walk]⟩
    | some p =>
      have hlt := hd b p hpar
      by_cases hbo : b = obj
      · exact ⟨(s, []), by simp [ancestor_walk, hbo]⟩
      · simp only [ancestor_walk, hbo, if_false]
        obtain ⟨r2, hr2⟩ := ih p
          (env.lv_obj_send_event p lv_event_code_t.LV_EVENT_DRAW_POST_END
            (env.lv_obj_send_event p lv_event_code_t.LV_EVENT_DRAW_POST
              (env.lv_obj_send_event p lv_event_code_t.LV_EVENT_DRAW_POST_BEGIN
                (refr_after_border env b (env.children p) false s).1))) (by omega)
        rw [hr2]
        exact ⟨_, rfl⟩

theorem snapshot_drain_returns {ε : Type} (env : Env ε) (hp : DispatchProgress env) :
    ∀ (fuel : Nat) (s : World ε), s.layer.draw_task_head.length ≤ fuel →
      ∃ r, snapshot_drain env fuel s = some r := by
  intro fuel
  induction fuel with
  | zero =>
    intro s hs
    have : s.layer.draw_task_head = [] := List.length_eq_zero.1 (Nat.le_zero.1 hs)
    exact ⟨(s, []), by simp [snapshot_drain, this]⟩
  | succ n ih =>
    intro s hs
    by_cases hne : s.layer.draw_task_head = []
    · exact ⟨(s, []), by simp [snapshot_drain, hne]⟩
    · have hlt := hp s hne
      obtain ⟨r2, hr2⟩ := ih (env.lv_draw_dispatch (env.lv_draw_dispatch_wait_for_request s))
        (by omega)
      simp only [snapshot_drain, ne_eq, hne, not_false_eq_true, if_true, hr2]
      exact ⟨_, rfl⟩

theorem snapshot_render_returns {ε : Type} (env : Env ε) (obj top_obj : Obj)
    (s : World ε) (ha : Acyclic env) :
    ∃ N r, ∀ fuel, N ≤ fuel → snapshot_render env fuel obj top_obj s = some r := by
  obtain ⟨depth, hd⟩ := ha
  by_cases ht : top_obj = obj
  · exact ⟨0, (env.lv_obj_redraw top_obj s, [Call.lv_obj_redraw top_obj]),
      fun fuel _ => by simp [snapshot_render, ht]⟩
  · obtain ⟨r, hr⟩ := ancestor_walk_returns env obj depth hd (depth top_obj) top_obj
      (env.lv_obj_refr top_obj s) (le_refl _)
    refine ⟨depth top_obj, (r.1, Call.lv_obj_refr top_obj :: r.2), fun fuel hf => ?_⟩
    simp only [snapshot_render, ht, if_false]
    rw [ancestor_walk_mono_le env obj _ fuel _ _ _ r hf hr]

/-- Under an acyclic scene tree and a dispatcher that makes progress, the capture returns
for every sufficiently large fuel. -/
theorem take_to_draw_buf_returns {ε : Type} (env : Env ε) (obj : Obj)
    (cf : lv_color_format_t) (s : World ε) (ha : Acyclic env) (hp : DispatchProgress env) :
    ∃ N, ∀ fuel, N ≤ fuel → ∃ r, lv_snapshot_take_to_draw_buf env fuel obj cf s = some r := by
  obtain ⟨N1, rr, hrr⟩ := snapshot_render_returns env obj
    (snapshot_prepare env obj cf (lv_snapshot_reshape_draw_buf env obj s).world).top_obj
    (snapshot_prepare env obj cf (lv_snapshot_reshape_draw_buf env obj s).world).world ha
  refine ⟨max N1 rr.1.layer.draw_task_head.length, fun fuel hf => ?_⟩
  unfold lv_snapshot_take_to_draw_buf
  split
  · exact ⟨_, rfl⟩
  · simp only
    split
    · exact ⟨_, rfl⟩
    · rw [hrr fuel (le_trans (le_max_left _ _) hf)]
      obtain ⟨dr, hdr⟩ := snapshot_drain_returns env hp fuel rr.1
        (le_trans (le_max_right _ _) hf)
      simp only [hdr]
      exact ⟨_, rfl⟩

/-! ### Observations that the render calls preserve -/

theorem refr_after_border_preserves {ε α : Type} (env : Env ε) (f : World ε → α)
    (hf : Preserves env f) (border_p : Obj) :
    ∀ (l : List Obj) (go : Bool) (s : World ε),
      f (refr_after_border env border_p l go s).1 = f s := by
  intro l
  induction l with
  | nil => intro go s; rfl
  | cons child rest ih =>
    intro go s
    simp only [refr_after_border]
    split
    · split
      · exact ih _ _
      · exact ih _ _
    · simp only
      rw [ih, hf.2.1]

theorem ancestor_walk_preserves {ε α : Type} (env : Env ε) (f : World ε → α)
    (hf : Preserves env f) (obj : Obj) :
    ∀ (fuel : Nat) (parent : Option Obj) (border_p : Obj) (s : World ε)
      (r : World ε × List Call),
      ancestor_walk env obj fuel parent border_p s = some r → f r.1 = f s := by
  intro fuel
  induction fuel with
  | zero =>
    intro parent b s r hw
    simp only [ancestor_walk] at hw
    split at hw
    · exact absurd hw (by simp)
    · cases hw; rfl
  | succ n ih =>
    intro parent b s r hw
    cases parent with
    | none => simp only [ancestor_walk] at hw; cases hw; rfl
    | some p =>
      simp only [ancestor_walk] at hw
      split at hw
      · cases hw; rfl
      · split at hw
        · exact absurd hw (by simp)
        · rename_i r2 hr2
          cases hw
          rw [ih _ _ _ _ hr2, hf.2.2.1, hf.2.2.1, hf.2.2.1,
            refr_after_border_preserves env f hf]

theorem snapshot_drain_preserves {ε α : Type} (env : Env ε) (f : World ε → α)
    (hf : Preserves env f) :
    ∀ (fuel : Nat) (s : World ε) (r : World ε × List Call),
      snapshot_drain env fuel s = some r → f r.1 = f s := by
  intro fuel
  induction fuel with
  | zero =>
    intro s r hd
    simp only [snapshot_drain] at hd
    split at hd
    · exact absurd hd (by simp)
    · cases hd; rfl
  | succ n ih =>
    intro s r hd
    simp only [snapshot_drain] at hd
    split at hd
    · split at hd
      · exact absurd hd (by simp)
      · rename_i r2 hr2
        cases hd
        rw [ih _ _ hr2, hf.2.2.2.2, hf.2.2.2.1]
    · cases hd; rfl

theorem snapshot_render_preserves {ε α : Type} (env : Env ε) (f : World ε → α)
    (hf : Preserves env f) (fuel : Nat) (obj top_obj : Obj) (s : World ε)
    (r : World ε × List Call) (hr : snapshot_render env fuel obj top_obj s = some r) :
    f r.1 = f s := by
  simp only [snapshot_render] at hr
  split at hr
  · cases hr; exact hf.1 _ _
  · split at hr
    · exact absurd hr (by simp)
    · rename_i r2 hr2
      cases hr
      rw [ancestor_walk_preserves env f hf obj _ _ _ _ _ hr2, hf.2.1]

/-! ### What the reshape and install steps leave in memory -/

theorem reshape_world_ext {ε : Type} (env : Env ε) (obj : Obj) (s : World ε) :
    (lv_snapshot_reshape_draw_buf env obj s).world.ext = env.lv_obj_update_layout obj s.ext := by
  simp only [lv_snapshot_reshape_draw_buf]
  split <;> rfl

theorem reshape_world_layer_head {ε : Type} (env : Env ε) (obj : Obj) (s : World ε) :
    (lv_snapshot_reshape_draw_buf env obj s).world.layer_head = s.layer_head := by
  simp only [lv_snapshot_reshape_draw_buf]
  split <;> rfl

theorem reshape_world_disp_refreshing {ε : Type} (env : Env ε) (obj : Obj) (s : World ε) :
    (lv_snapshot_reshape_draw_buf env obj s).world.disp_refreshing = s.disp_refreshing := by
  simp only [lv_snapshot_reshape_draw_buf]
  split <;> rfl

theorem reshape_calls_mem {ε : Type} (env : Env ε) (obj : Obj) (s : World ε) :
    ∀ c ∈ (lv_snapshot_reshape_draw_buf env obj s).trace,
      c = Call.lv_obj_update_layout obj ∨ ∃ cf w h st, c = Call.lv_draw_buf_reshape cf w h st := by
  intro c hc
  simp only [lv_snapshot_reshape_draw_buf] at hc
  split at hc
  · simp only [List.mem_singleton] at hc
    exact Or.inl hc
  · simp only [List.mem_cons, List.mem_singleton] at hc
    rcases hc with h | h | h
    · exact Or.inl h
    · exact Or.inr ⟨_, _, _, _, h⟩
    · simp at h

theorem prepare_top_obj {ε : Type} (env : Env ε) (obj : Obj) (cf : lv_color_format_t)
    (s : World ε) :
    (snapshot_prepare env obj cf (lv_snapshot_reshape_draw_buf env obj s).world).top_obj =
      (resolver_answer env obj s).getD obj := by
  simp only [snapshot_prepare, resolver_answer, reshape_world_ext]
  split <;> simp_all

theorem prepare_calls_mem {ε : Type} (env : Env ε) (obj : Obj) (cf : lv_color_format_t)
    (s : World ε) :
    ∀ c ∈ (snapshot_prepare env obj cf s).trace, c = Call.lv_draw_buf_clear := by
  intro c hc
  simp only [snapshot_prepare] at hc
  split at hc
  · simpa using hc
  · simp at hc

theorem prepare_saved {ε : Type} (env : Env ε) (obj : Obj) (cf : lv_color_format_t)
    (s : World ε) :
    (snapshot_prepare env obj cf s).disp_new = env.lv_obj_get_display obj ∧
    (snapshot_prepare env obj cf s).disp_old = s.disp_refreshing ∧
    (snapshot_prepare env obj cf s).layer_old = s.layer_head (env.lv_obj_get_display obj) ∧
    (snapshot_prepare env obj cf s).world.layer_head =
      Function.update s.layer_head (env.lv_obj_get_display obj) (some lv_layer_ref.snapshot) ∧
    (snapshot_prepare env obj cf s).world.disp_refreshing = some (env.lv_obj_get_display obj) := by
  unfold snapshot_prepare lv_refr_get_disp_refreshing lv_refr_set_disp_refreshing
  refine ⟨rfl, ?_, ?_, ?_, rfl⟩ <;> dsimp only <;> split <;> rfl

theorem prepare_layer {ε : Type} (env : Env ε) (obj : Obj) (cf : lv_color_format_t)
    (s : World ε) :
    (snapshot_prepare env obj cf s).snapshot_area =
      lv_area_increase (env.lv_obj_get_coords s.ext obj)
        (env.lv_obj_get_ext_draw_size s.ext obj) (env.lv_obj_get_ext_draw_size s.ext obj) ∧
    (snapshot_prepare env obj cf s).world.layer =
      { draw_buf := some lv_draw_buf_ref.target
        buf_area :=
          { x1 := (snapshot_prepare env obj cf s).snapshot_area.x1
            y1 := (snapshot_prepare env obj cf s).snapshot_area.y1
            x2 := (snapshot_prepare env obj cf s).snapshot_area.x1 + s.draw_buf.header.w - 1
            y2 := (snapshot_prepare env obj cf s).snapshot_area.y1 + s.draw_buf.header.h - 1 }
        color_format := cf
        _clip_area := (snapshot_prepare env obj cf s).snapshot_area
        phy_clip_area := (snapshot_prepare env obj cf s).snapshot_area
        draw_task_head := env.lv_layer_init.draw_task_head } :=
  ⟨rfl, rfl⟩

/-! ### Facts about the concrete scene -/

theorem demo_acyclic (W H M : Int) (top : Option Obj) : Acyclic (demoEnv W H M top) := by
  refine ⟨fun o => if o = 0 then 0 else if o = 1 then 1 else if o = 5 ∨ o = 6 then 3 else 2, ?_⟩
  intro o p h
  simp only [demoEnv] at h
  unfold demo_parent at h
  split at h <;> simp at h <;> subst h <;> simp

theorem demo_progress (W H M : Int) (top : Option Obj) :
    DispatchProgress (demoEnv W H M top) := by
  intro s hs
  simp only [demoEnv, demo_dispatch, List.length_tail]
  have : 0 < s.layer.draw_task_head.length := List.length_pos.2 hs
  omega

/-! ### The render calls of a successful capture -/

theorem snapshot_render_calls_mem {ε : Type} (env : Env ε) (fuel : Nat) (obj top_obj : Obj)
    (s : World ε) (r : World ε × List Call)
    (hr : snapshot_render env fuel obj top_obj s = some r) :
    ∀ c ∈ r.2, (∃ o, c = Call.lv_obj_redraw o) ∨ (∃ o, c = Call.lv_obj_refr o) ∨
      (∃ o e, c = Call.lv_obj_send_event o e) := by
  intro c hc
  simp only [snapshot_render] at hr
  split at hr
  · cases hr
    simp only [List.mem_singleton] at hc
    exact Or.inl ⟨_, hc⟩
  · split at hr
    · exact absurd hr (by simp)
    · rename_i r2 hr2
      cases hr
      simp only [List.mem_cons] at hc
      rcases hc with h | h
      · exact Or.inr (Or.inl ⟨_, h⟩)
      · exact Or.inr (ancestor_walk_calls_mem env obj _ _ _ _ _ hr2 c h)

theorem take_ok_trace {ε : Type} (env : Env ε) (fuel : Nat) (obj : Obj)
    (cf : lv_color_format_t) (s : World ε) (r : Run ε lv_result_t)
    (hr : lv_snapshot_take_to_draw_buf env fuel obj cf s = some r)
    (hok : r.ret = lv_result_t.LV_RESULT_OK) :
    ∃ rr dr,
      snapshot_render env fuel obj ((resolver_answer env obj s).getD obj)
        (snapshot_prepare env obj cf (lv_snapshot_reshape_draw_buf env obj s).world).world
          = some rr ∧
      snapshot_drain env fuel rr.1 = some dr ∧
      r.trace = (lv_snapshot_reshape_draw_buf env obj s).trace ++
        (snapshot_prepare env obj cf (lv_snapshot_reshape_draw_buf env obj s).world).trace
        ++ rr.2 ++ dr.2 ∧
      r.world = snapshot_restore
        (snapshot_prepare env obj cf (lv_snapshot_reshape_draw_buf env obj s).world) dr.1 := by
  rcases take_to_draw_buf_cases env fuel obj cf s r hr with ⟨_, h1⟩ | ⟨_, hne, h2⟩ |
    ⟨_, _, rr, dr, hrr, hdr, h3⟩
  · rw [h1] at hok
    exact absurd hok (by simp)
  · rw [h2] at hok
    exact absurd hok hne
  · rw [prepare_top_obj] at hrr
    exact ⟨rr, dr, hrr, hdr, by rw [h3], by rw [h3]⟩

theorem take_ok_render_calls {ε : Type} (env : Env ε) (fuel : Nat) (obj : Obj)
    (cf : lv_color_format_t) (s : World ε) (r : Run ε lv_result_t)
    (hr : lv_snapshot_take_to_draw_buf env fuel obj cf s = some r)
    (hok : r.ret = lv_result_t.LV_RESULT_OK) :
    ∃ rr,
      snapshot_render env fuel obj ((resolver_answer env obj s).getD obj)
        (snapshot_prepare env obj cf (lv_snapshot_reshape_draw_buf env obj s).world).world
          = some rr ∧
      render_calls r.trace = rr.2 := by
  obtain ⟨rr, dr, hrr, hdr, ht, _⟩ := take_ok_trace env fuel obj cf s r hr hok
  refine ⟨rr, hrr, ?_⟩
  have h1 : render_calls (lv_snapshot_reshape_draw_buf env obj s).trace = [] := by
    apply List.filter_eq_nil_iff.2
    intro c hc
    rcases reshape_calls_mem env obj s c hc with h | ⟨_, _, _, _, h⟩ <;> subst h <;>
      simp [is_render_call]
  have h2 : render_calls
      (snapshot_prepare env obj cf (lv_snapshot_reshape_draw_buf env obj s).world).trace = [] := by
    apply List.filter_eq_nil_iff.2
    intro c hc
    rw [prepare_calls_mem env obj cf _ c hc]
    simp [is_render_call]
  have h3 : render_calls dr.2 = [] := by
    apply List.filter_eq_nil_iff.2
    intro c hc
    rcases snapshot_drain_calls_mem env fuel rr.1 dr hdr c hc with h | h <;> subst h <;>
      simp [is_render_call]
  have h4 : render_calls rr.2 = rr.2 := by
    apply List.filter_eq_self.2
    intro c hc
    rcases snapshot_render_calls_mem env fuel obj _ _ rr hrr c hc with
      ⟨_, h⟩ | ⟨_, h⟩ | ⟨_, _, h⟩ <;> subst h <;> rfl
  rw [ht]
  unfold render_calls at h1 h2 h3 h4 ⊢
  rw [List.filter_append, List.filter_append, List.filter_append, h1, h2, h3, h4]
  simp

theorem take_ok_walk_calls {ε : Type} (env : Env ε) (fuel : Nat) (obj : Obj)
    (cf : lv_color_format_t) (s : World ε) (r : Run ε lv_result_t) (top : Obj)
    (ps : List Obj)
    (htop : resolver_answer env obj s = some top) (hne : top ≠ obj)
    (hch : is_parent_chain env obj top ps = true)
    (hr : lv_snapshot_take_to_draw_buf env fuel obj cf s = some r)
    (hok : r.ret = lv_result_t.LV_RESULT_OK) :
    render_calls r.trace = Call.lv_obj_refr top :: walk_calls env top ps := by
  obtain ⟨rr, hrr, hrc⟩ := take_ok_render_calls env fuel obj cf s r hr hok
  rw [hrc]
  rw [htop] at hrr
  simp only [Option.getD_some, snapshot_render, hne, if_false] at hrr
  split at hrr
  · exact absurd hrr (by simp)
  · rename_i r2 hr2
    cases hrr
    rw [ancestor_walk_calls env obj _ _ _ ps r2 hch hr2]

theorem ancestor_walk_chain_exists {ε : Type} (env : Env ε) (obj : Obj) :
    ∀ (fuel : Nat) (border_p : Obj) (s : World ε) (r : World ε × List Call),
      ancestor_walk env obj fuel (env.lv_obj_get_parent border_p) border_p s = some r →
      ∃ ps, is_parent_chain env obj border_p ps = true := by
  intro fuel
  induction fuel with
  | zero =>
    intro b s r hw
    simp only [ancestor_walk] at hw
    split at hw
    · exact absurd hw (by simp)
    · rename_i hcond
      refine ⟨[], ?_⟩
      simp only [is_parent_chain, decide_eq_true_eq]
      by_cases hb : b = obj
      · exact Or.inl hb
      · right
        by_contra hp
        exact hcond ⟨hp, hb⟩
  | succ n ih =>
    intro b s r hw
    cases hpar : env.lv_obj_get_parent b with
    | none => exact ⟨[], by simp [is_parent_chain, hpar]⟩
    | some p =>
      by_cases hb : b = obj
      · exact ⟨[], by simp [is_parent_chain, hb]⟩
      · rw [hpar] at hw
        simp only [ancestor_walk, hb, if_false] at hw
        split at hw
        · exact absurd hw (by simp)
        · rename_i r2 hr2
          obtain ⟨ps, hps⟩ := ih p _ r2 hr2
          exact ⟨p :: ps, by simp [is_parent_chain, hb, hpar, hps]⟩

theorem take_ok_chain_exists {ε : Type} (env : Env ε) (fuel : Nat) (obj : Obj)
    (cf : lv_color_format_t) (s : World ε) (r : Run ε lv_result_t) (top : Obj)
    (htop : resolver_answer env obj s = some top) (hne : top ≠ obj)
    (hr : lv_snapshot_take_to_draw_buf env fuel obj cf s = some r)
    (hok : r.ret = lv_result_t.LV_RESULT_OK) :
    ∃ ps, is_parent_chain env obj top ps = true := by
  obtain ⟨rr, hrr, _⟩ := take_ok_render_calls env fuel obj cf s r hr hok
  rw [htop] at hrr
  simp only [Option.getD_some, snapshot_render, hne, if_false] at hrr
  split at hrr
  · exact absurd hrr (by simp)
  · rename_i r2 hr2
    exact ancestor_walk_chain_exists env obj _ _ _ r2 hr2

theorem hook_calls_render_calls (t : List Call) : hook_calls (render_calls t) = hook_calls t := by
  unfold hook_calls render_calls
  rw [List.filter_filter]
  congr 1
  funext c
  cases c <;> rfl

theorem refr_calls_render_calls (t : List Call) :
    (render_calls t).filter is_refr_call = t.filter is_refr_call := by
  unfold render_calls
  rw [List.filter_filter]
  congr 1
  funext c
  cases c <;> rfl

theorem hook_calls_walk_calls {ε : Type} (env : Env ε) :
    ∀ (ps : List Obj) (border_p : Obj), hook_calls (walk_calls env border_p ps) = chain_hooks ps := by
  intro ps
  induction ps with
  | nil => intro b; rfl
  | cons p ps ih =>
    intro b
    have h1 : List.filter is_hook_call
        ((younger_siblings (env.children p) b).map Call.lv_obj_refr) = [] := by
      apply List.filter_eq_nil_iff.2
      intro c hc
      obtain ⟨o, _, ho⟩ := List.mem_map.1 hc
      subst ho
      simp [is_hook_call]
    have h2 : List.filter is_hook_call (post_draw_events p) = post_draw_events p := rfl
    have h3 := ih p
    unfold hook_calls at h3 ⊢
    simp only [walk_calls, level_calls, chain_hooks, List.filter_append, h1, h2, h3,
      List.nil_append]

theorem younger_siblings_getElem_opt (l : List Obj) (b : Obj) (i : Nat) :
    (younger_siblings l b)[i]? = l[l.indexOf b + 1 + i]? := by
  unfold younger_siblings
  rw [List.getElem?_drop]

/-! ### Allocator calls along a trace -/

theorem buf_balance_append (a b : List Call) :
    buf_balance (a ++ b) = buf_balance a + buf_balance b := by
  induction a with
  | nil => simp [buf_balance]
  | cons c t ih =>
    cases c with
    | lv_draw_buf_create w h cf st nn =>
      cases nn with
      | false => exact ih
      | true =>
        show buf_balance (t ++ b) + 1 = (buf_balance t + 1) + buf_balance b
        rw [ih]
        ring
    | lv_draw_buf_destroy =>
      show buf_balance (t ++ b) - 1 = (buf_balance t - 1) + buf_balance b
      rw [ih]
      ring
    | _ => exact ih

theorem buf_balance_of_no_alloc (t : List Call) (h : ∀ c ∈ t, is_alloc_call c = false) :
    buf_balance t = 0 := by
  induction t with
  | nil => rfl
  | cons c t ih =>
    have hc := h c (List.mem_cons_self _ _)
    have ht := ih (fun d hd => h d (List.mem_cons_of_mem _ hd))
    cases c <;> simp_all [buf_balance, is_alloc_call]

theorem destroy_count_of_no_alloc (t : List Call) (h : ∀ c ∈ t, is_alloc_call c = false) :
    destroy_count t = 0 := by
  unfold destroy_count
  apply List.count_eq_zero.2
  intro hmem
  have := h _ hmem
  simp [is_alloc_call] at this

theorem take_to_draw_buf_no_alloc {ε : Type} (env : Env ε) (fuel : Nat) (obj : Obj)
    (cf : lv_color_format_t) (s : World ε) (r : Run ε lv_result_t)
    (hr : lv_snapshot_take_to_draw_buf env fuel obj cf s = some r) :
    ∀ c ∈ r.trace, is_alloc_call c = false := by
  intro c hc
  rcases take_to_draw_buf_cases env fuel obj cf s r hr with ⟨_, h1⟩ | ⟨_, _, h2⟩ |
    ⟨_, _, rr, dr, hrr, hdr, h3⟩
  · subst h1
    simp only [List.mem_singleton] at hc
    subst hc
    rfl
  · subst h2
    rcases reshape_calls_mem env obj s c hc with h | ⟨_, _, _, _, h⟩ <;> subst h <;> rfl
  · subst h3
    simp only [List.mem_append] at hc
    rcases hc with ((hc | hc) | hc) | hc
    · rcases reshape_calls_mem env obj s c hc with h | ⟨_, _, _, _, h⟩ <;> subst h <;> rfl
    · rw [prepare_calls_mem env obj cf _ c hc]
      rfl
    · rcases snapshot_render_calls_mem env fuel obj _ _ rr hrr c hc with
        ⟨_, h⟩ | ⟨_, h⟩ | ⟨_, _, h⟩ <;> subst h <;> rfl
    · rcases snapshot_drain_calls_mem env fuel rr.1 dr hdr c hc with h | h <;> subst h <;> rfl

theorem create_calls {ε : Type} (env : Env ε) (obj : Obj) (cf : lv_color_format_t)
    (s : World ε) :
    buf_balance (lv_snapshot_create_draw_buf env obj cf s).trace =
      (if (lv_snapshot_create_draw_buf env obj cf s).ret.isSome = true then 1 else 0) ∧
    destroy_count (lv_snapshot_create_draw_buf env obj cf s).trace = 0 := by
  simp only [lv_snapshot_create_draw_buf]
  split
  · exact ⟨rfl, rfl⟩
  · constructor
    · cases env.lv_draw_buf_create _ _ cf LV_STRIDE_AUTO <;> simp [buf_balance]
    · simp [destroy_count]

theorem take_cases {ε : Type} (env : Env ε) (fuel : Nat) (obj : Obj)
    (cf : lv_color_format_t) (s : World ε) (r : Run ε (Option lv_draw_buf_t))
    (hr : lv_snapshot_take env fuel obj cf s = some r) :
    ((lv_snapshot_create_draw_buf env obj cf s).ret = none ∧
      r = { ret := none, world := (lv_snapshot_create_draw_buf env obj cf s).world,
            trace := (lv_snapshot_create_draw_buf env obj cf s).trace }) ∨
    (∃ b r1, (lv_snapshot_create_draw_buf env obj cf s).ret = some b ∧
      lv_snapshot_take_to_draw_buf env fuel obj cf
        { (lv_snapshot_create_draw_buf env obj cf s).world with draw_buf := b } = some r1 ∧
      ((r1.ret ≠ lv_result_t.LV_RESULT_OK ∧
        r = { ret := none, world := r1.world,
              trace := (lv_snapshot_create_draw_buf env obj cf s).trace ++ r1.trace ++
                [Call.lv_draw_buf_destroy] }) ∨
       (r1.ret = lv_result_t.LV_RESULT_OK ∧
        r = { ret := some r1.world.draw_buf, world := r1.world,
              trace := (lv_snapshot_create_draw_buf env obj cf s).trace ++ r1.trace }))) := by
  unfold lv_snapshot_take at hr
  simp only at hr
  cases hc : (lv_snapshot_create_draw_buf env obj cf s).ret with
  | none =>
    simp only [hc] at hr
    exact Or.inl ⟨rfl, (Option.some.inj hr).symm⟩
  | some b =>
    simp only [hc] at hr
    right
    cases h1 : lv_snapshot_take_to_draw_buf env fuel obj cf
        { (lv_snapshot_create_draw_buf env obj cf s).world with draw_buf := b } with
    | none => simp [h1] at hr
    | some r1 =>
      simp only [h1] at hr
      refine ⟨b, r1, rfl, h1, ?_⟩
      by_cases hok : r1.ret = lv_result_t.LV_RESULT_OK
      · simp only [ne_eq, hok, not_true_eq_false, if_false] at hr
        exact Or.inr ⟨hok, (Option.some.inj hr).symm⟩
      · simp only [ne_eq, hok, not_false_eq_true, if_true] at hr
        exact Or.inl ⟨hok, (Option.some.inj hr).symm⟩

/-! ### The buffer header after a successful capture -/

theorem take_ok_header {ε : Type} (env : Env ε) (fuel : Nat) (obj : Obj)
    (cf : lv_color_format_t) (s : World ε) (r : Run ε lv_result_t)
    (hr : lv_snapshot_take_to_draw_buf env fuel obj cf s = some r)
    (hok : r.ret = lv_result_t.LV_RESULT_OK)
    (hf : Preserves env (fun w => w.draw_buf.header))
    (hclear : ∀ b, (env.lv_draw_buf_clear b).header = b.header) :
    r.world.draw_buf.header = (lv_snapshot_reshape_draw_buf env obj s).world.draw_buf.header := by
  obtain ⟨rr, dr, hrr, hdr, _, hw⟩ := take_ok_trace env fuel obj cf s r hr hok
  have h1 := snapshot_drain_preserves env _ hf fuel rr.1 dr hdr
  have h2 := snapshot_render_preserves env _ hf fuel obj _ _ rr hrr
  simp only at h1 h2
  rw [hw]
  show dr.1.draw_buf.header = _
  rw [h1, h2]
  simp only [snapshot_prepare, lv_refr_set_disp_refreshing]
  split
  · exact hclear _
  · rfl

theorem reshape_ok_size {ε : Type} (env : Env ε) (obj : Obj) (s : World ε)
    (hok : (lv_snapshot_reshape_draw_buf env obj s).ret = lv_result_t.LV_RESULT_OK)
    (hresh : ∀ b c w h st, (env.lv_draw_buf_reshape b c w h st).2 = true →
      (env.lv_draw_buf_reshape b c w h st).1.header.w = w ∧
      (env.lv_draw_buf_reshape b c w h st).1.header.h = h) :
    (lv_snapshot_reshape_draw_buf env obj s).world.draw_buf.header.w =
      env.lv_obj_get_width (env.lv_obj_update_layout obj s.ext) obj +
        env.lv_obj_get_ext_draw_size (env.lv_obj_update_layout obj s.ext) obj * 2 ∧
    (lv_snapshot_reshape_draw_buf env obj s).world.draw_buf.header.h =
      env.lv_obj_get_height (env.lv_obj_update_layout obj s.ext) obj +
        env.lv_obj_get_ext_draw_size (env.lv_obj_update_layout obj s.ext) obj * 2 := by
  by_cases hz : env.lv_obj_get_width (env.lv_obj_update_layout obj s.ext) obj +
            env.lv_obj_get_ext_draw_size (env.lv_obj_update_layout obj s.ext) obj * 2 = 0 ∨
          env.lv_obj_get_height (env.lv_obj_update_layout obj s.ext) obj +
            env.lv_obj_get_ext_draw_size (env.lv_obj_update_layout obj s.ext) obj * 2 = 0
  · rw [reshape_draw_buf_of_zero env obj s hz] at hok
    exact absurd hok (by simp)
  · rw [reshape_draw_buf_of_nonzero env obj s hz] at hok ⊢
    simp only at hok ⊢
    split at hok
    · exact absurd hok (by simp)
    · rename_i h2
      exact hresh _ _ _ _ _ (by simpa using h2)

/-! ### Claims on sizing and on the format gate -/

/-- C4: for a node whose resolved size is `W` by `H` and whose margin is `M`, with
`W + 2 * M` and `H + 2 * M` both non-zero, `lv_snapshot_create_draw_buf` asks the allocator
for exactly `W + 2 * M` by `H + 2 * M` pixels (and returns what the allocator returns), and
`lv_snapshot_reshape_draw_buf` reshapes the supplied buffer to exactly that size. -/
theorem buffer_dimensions {ε : Type} (env : Env ε) (obj : Obj) (cf : lv_color_format_t)
    (s : World ε) (W H M : Int)
    (hW : env.lv_obj_get_width (env.lv_obj_update_layout obj s.ext) obj = W)
    (hH : env.lv_obj_get_height (env.lv_obj_update_layout obj s.ext) obj = H)
    (hM : env.lv_obj_get_ext_draw_size (env.lv_obj_update_layout obj s.ext) obj = M)
    (hw : W + 2 * M ≠ 0) (hh : H + 2 * M ≠ 0) :
    (lv_snapshot_create_draw_buf env obj cf s).ret =
        env.lv_draw_buf_create (W + 2 * M) (H + 2 * M) cf LV_STRIDE_AUTO ∧
    (lv_snapshot_create_draw_buf env obj cf s).trace =
        [Call.lv_obj_update_layout obj,
         Call.lv_draw_buf_create (W + 2 * M) (H + 2 * M) cf LV_STRIDE_AUTO
           (env.lv_draw_buf_create (W + 2 * M) (H + 2 * M) cf LV_STRIDE_AUTO).isSome] ∧
    (lv_snapshot_reshape_draw_buf env obj s).trace =
        [Call.lv_obj_update_layout obj,
         Call.lv_draw_buf_reshape lv_color_format_t.LV_COLOR_FORMAT_UNKNOWN
           (W + 2 * M) (H + 2 * M) LV_STRIDE_AUTO] ∧
    (lv_snapshot_reshape_draw_buf env obj s).world.draw_buf =
        (env.lv_draw_buf_reshape s.draw_buf lv_color_format_t.LV_COLOR_FORMAT_UNKNOWN
           (W + 2 * M) (H + 2 * M) LV_STRIDE_AUTO).1 ∧
    (lv_snapshot_reshape_draw_buf env obj s).ret =
        (if (env.lv_draw_buf_reshape s.draw_buf lv_color_format_t.LV_COLOR_FORMAT_UNKNOWN
           (W + 2 * M) (H + 2 * M) LV_STRIDE_AUTO).2 = false
         then lv_result_t.LV_RESULT_INVALID else lv_result_t.LV_RESULT_OK) := by
  have hz : ¬ (W + M * 2 = 0 ∨ H + M * 2 = 0) := by
    rw [mul_comm M 2]
    exact fun h => h.elim hw hh
  subst hW hH hM
  rw [mul_comm 2] at *
  simp only [lv_snapshot_create_draw_buf, lv_snapshot_reshape_draw_buf]
  rw [if_neg hz, if_neg hz]
  exact ⟨rfl, rfl, rfl, rfl, rfl⟩

/-- C2, as amended: when the computed width `W + 2 * M` or the computed height `H + 2 * M`
is 0, `lv_snapshot_create_draw_buf` returns `NULL` without calling the allocator,
`lv_snapshot_reshape_draw_buf` returns `LV_RESULT_INVALID`, and
`lv_snapshot_take_to_draw_buf` returns `LV_RESULT_INVALID` whatever the fuel, with the
supplied buffer unchanged and no call made beyond layout resolution and the diagnostic. -/
theorem degenerate_size_rejected {ε : Type} (env : Env ε) (fuel : Nat) (obj : Obj)
    (cf : lv_color_format_t) (s : World ε) (W H M : Int)
    (hW : env.lv_obj_get_width (env.lv_obj_update_layout obj s.ext) obj = W)
    (hH : env.lv_obj_get_height (env.lv_obj_update_layout obj s.ext) obj = H)
    (hM : env.lv_obj_get_ext_draw_size (env.lv_obj_update_layout obj s.ext) obj = M)
    (hz : W + 2 * M = 0 ∨ H + 2 * M = 0) :
    (lv_snapshot_create_draw_buf env obj cf s).ret = none ∧
    (lv_snapshot_create_draw_buf env obj cf s).trace = [Call.lv_obj_update_layout obj] ∧
    (lv_snapshot_reshape_draw_buf env obj s).ret = lv_result_t.LV_RESULT_INVALID ∧
    (lv_snapshot_reshape_draw_buf env obj s).world.draw_buf = s.draw_buf ∧
    ∃ r, lv_snapshot_take_to_draw_buf env fuel obj cf s = some r ∧
      r.ret = lv_result_t.LV_RESULT_INVALID ∧
      r.world.draw_buf = s.draw_buf ∧
      r.world.layer_head = s.layer_head ∧
      r.world.disp_refreshing = s.disp_refreshing ∧
      (r.trace = [Call.lv_obj_update_layout obj] ∨
       r.trace = [Call.LV_LOG_WARN LogMsg.not_supported_color_format]) := by
  have hz2 : env.lv_obj_get_width (env.lv_obj_update_layout obj s.ext) obj +
            env.lv_obj_get_ext_draw_size (env.lv_obj_update_layout obj s.ext) obj * 2 = 0 ∨
          env.lv_obj_get_height (env.lv_obj_update_layout obj s.ext) obj +
            env.lv_obj_get_ext_draw_size (env.lv_obj_update_layout obj s.ext) obj * 2 = 0 := by
    rw [hW, hH, hM, mul_comm M 2]
    exact hz
  rw [create_draw_buf_of_zero env obj cf s hz2, reshape_draw_buf_of_zero env obj s hz2]
  refine ⟨rfl, rfl, rfl, rfl, ?_⟩
  cases hcf : cf_supported cf with
  | false =>
    exact ⟨_, take_to_draw_buf_of_unsupported env fuel obj cf s hcf, rfl, rfl, rfl, rfl,
      Or.inr rfl⟩
  | true =>
    refine ⟨{ ret := lv_result_t.LV_RESULT_INVALID,
              world := { s with ext := env.lv_obj_update_layout obj s.ext },
              trace := [Call.lv_obj_update_layout obj] }, ?_, rfl, rfl, rfl, rfl, Or.inl rfl⟩
    simp [lv_snapshot_take_to_draw_buf, hcf, reshape_draw_buf_of_zero env obj s hz2]

/-- C3: a format outside the accepted set makes `lv_snapshot_take_to_draw_buf` return
`LV_RESULT_INVALID` at once, whatever the fuel: the memory (buffer, layer slots,
refreshing display) is untouched and the only call is the diagnostic.  A format inside the
set passes the gate: every run that returns began with the layout resolution of the
reshape step and did not log the diagnostic first. -/
theorem format_gate {ε : Type} (env : Env ε) (fuel : Nat) (obj : Obj)
    (cf : lv_color_format_t) (s : World ε) :
    (cf ∉ accepted_formats →
      lv_snapshot_take_to_draw_buf env fuel obj cf s =
        some { ret := lv_result_t.LV_RESULT_INVALID, world := s,
               trace := [Call.LV_LOG_WARN LogMsg.not_supported_color_format] }) ∧
    (cf ∈ accepted_formats →
      cf_supported cf = true ∧
      ∀ r, lv_snapshot_take_to_draw_buf env fuel obj cf s = some r →
        r.trace.head? = some (Call.lv_obj_update_layout obj)) := by
  constructor
  · intro h
    apply take_to_draw_buf_of_unsupported
    cases hcf : cf_supported cf with
    | false => rfl
    | true => exact absurd ((cf_supported_iff cf).1 hcf) h
  · intro h
    have hcf := (cf_supported_iff cf).2 h
    refine ⟨hcf, ?_⟩
    intro r hr
    obtain ⟨t, ht⟩ := reshape_trace_head env obj s
    rcases take_to_draw_buf_cases env fuel obj cf s r hr with ⟨h1, _⟩ | ⟨_, _, h2⟩ |
      ⟨_, _, rr, dr, _, _, h3⟩
    · rw [hcf] at h1
      exact absurd h1 (by simp)
    · rw [h2, ht]
      rfl
    · rw [h3]
      simp only [ht, List.cons_append, List.head?_cons]

/-! ### Claims on the display state and on the installed layer -/

/-- C1: whenever `lv_snapshot_take_to_draw_buf` returns, with `LV_RESULT_OK` or with
`LV_RESULT_INVALID`, the `layer_head` of the display that owns the object and the
refreshing-display global have the values they had before the call; if the render, event
and dispatch functions leave the `layer_head` slots alone, every slot is unchanged.  The
call does return once the fuel is large enough, when the scene tree is acyclic and the
dispatcher makes progress. -/
theorem display_state_restored {ε : Type} (env : Env ε) (obj : Obj) (cf : lv_color_format_t)
    (s : World ε) :
    (∀ fuel r, lv_snapshot_take_to_draw_buf env fuel obj cf s = some r →
      r.world.layer_head (env.lv_obj_get_display obj) =
        s.layer_head (env.lv_obj_get_display obj) ∧
      r.world.disp_refreshing = s.disp_refreshing ∧
      (Preserves env (fun w => w.layer_head) → r.world.layer_head = s.layer_head)) ∧
    (Acyclic env → DispatchProgress env →
      ∃ N, ∀ fuel, N ≤ fuel → ∃ r, lv_snapshot_take_to_draw_buf env fuel obj cf s = some r) := by
  refine ⟨?_, take_to_draw_buf_returns env obj cf s⟩
  intro fuel r hr
  rcases take_to_draw_buf_cases env fuel obj cf s r hr with ⟨_, h1⟩ | ⟨_, _, h2⟩ |
    ⟨_, _, rr, dr, hrr, hdr, h3⟩
  · subst h1
    exact ⟨rfl, rfl, fun _ => rfl⟩
  · subst h2
    rw [reshape_world_layer_head, reshape_world_disp_refreshing]
    exact ⟨rfl, rfl, fun _ => rfl⟩
  · subst h3
    obtain ⟨hnew, hold, hlay, hhead, _⟩ :=
      prepare_saved env obj cf (lv_snapshot_reshape_draw_buf env obj s).world
    simp only [snapshot_restore, lv_refr_set_disp_refreshing, hnew, hold, hlay,
      Function.update_same, reshape_world_layer_head, reshape_world_disp_refreshing]
    refine ⟨trivial, trivial, ?_⟩
    intro hf
    have h1 := snapshot_drain_preserves env _ hf fuel rr.1 dr hdr
    have h2 := snapshot_render_preserves env _ hf fuel obj _ _ rr hrr
    simp only at h1 h2
    rw [h1, h2, hhead, reshape_world_layer_head, Function.update_idem,
      Function.update_eq_self]

/-- C1 on the concrete scene: a capture of object 1 whose redraw root is object 5 returns
`LV_RESULT_OK` and leaves layer 7 on display 0 and display 3 as the refreshing one. -/
theorem display_state_restored_witness :
    ∃ r, lv_snapshot_take_to_draw_buf (demoEnv 50 20 4 (some 5)) 5 1
        lv_color_format_t.LV_COLOR_FORMAT_A8 demoWorld = some r ∧
      r.world.layer_head 0 = some (lv_layer_ref.other 7) ∧
      r.world.disp_refreshing = some 3 ∧
      ∃ N, ∀ fuel, N ≤ fuel → ∃ r2, lv_snapshot_take_to_draw_buf (demoEnv 50 20 4 (some 5))
        fuel 1 lv_color_format_t.LV_COLOR_FORMAT_A8 demoWorld = some r2 := by
  have h := display_state_restored (demoEnv 50 20 4 (some 5)) 1
    lv_color_format_t.LV_COLOR_FORMAT_A8 demoWorld
  cases hr : lv_snapshot_take_to_draw_buf (demoEnv 50 20 4 (some 5)) 5 1
      lv_color_format_t.LV_COLOR_FORMAT_A8 demoWorld with
  | none =>
    have hs : (lv_snapshot_take_to_draw_buf (demoEnv 50 20 4 (some 5)) 5 1
      lv_color_format_t.LV_COLOR_FORMAT_A8 demoWorld).isSome = true := rfl
    rw [hr] at hs
    exact absurd hs (by simp)
  | some r =>
    exact ⟨r, rfl, (h.1 5 r hr).1, (h.1 5 r hr).2.1,
      h.2 (demo_acyclic _ _ _ _) (demo_progress _ _ _ _)⟩

/-- C10: take a capture that passes the format gate and whose reshape step returns
`LV_RESULT_OK` leaving the computed size `W + 2 * M` by `H + 2 * M` in the buffer header,
for a node with bounds `c`, `W = c.x2 - c.x1 + 1` and `H = c.y2 - c.y1 + 1`.  The reshape
was asked for the computed size, and the layer installed at line 131 has its buffer area,
its logical clip area and its physical clip area all equal to `c` grown by `M` on every
side; the layer is bound to the buffer and the format, it is the active layer of the
owning display, and that display is the refreshing one.  Every run that returns has
rendered and drained from this state and returns `LV_RESULT_OK`. -/
theorem installed_layer_areas {ε : Type} (env : Env ε) (obj : Obj) (cf : lv_color_format_t)
    (s : World ε) (W H M : Int) (c : lv_area_t)
    (hcf : cf_supported cf = true)
    (hW : env.lv_obj_get_width (env.lv_obj_update_layout obj s.ext) obj = W)
    (hH : env.lv_obj_get_height (env.lv_obj_update_layout obj s.ext) obj = H)
    (hM : env.lv_obj_get_ext_draw_size (env.lv_obj_update_layout obj s.ext) obj = M)
    (hc : env.lv_obj_get_coords (env.lv_obj_update_layout obj s.ext) obj = c)
    (hWc : W = c.x2 - c.x1 + 1) (hHc : H = c.y2 - c.y1 + 1)
    (hres : (lv_snapshot_reshape_draw_buf env obj s).ret = lv_result_t.LV_RESULT_OK)
    (hbw : (lv_snapshot_reshape_draw_buf env obj s).world.draw_buf.header.w = W + 2 * M)
    (hbh : (lv_snapshot_reshape_draw_buf env obj s).world.draw_buf.header.h = H + 2 * M) :
    (lv_snapshot_reshape_draw_buf env obj s).trace =
      [Call.lv_obj_update_layout obj,
       Call.lv_draw_buf_reshape lv_color_format_t.LV_COLOR_FORMAT_UNKNOWN
         (W + 2 * M) (H + 2 * M) LV_STRIDE_AUTO] ∧
    (snapshot_prepare env obj cf (lv_snapshot_reshape_draw_buf env obj s).world).snapshot_area =
      { x1 := c.x1 - M, y1 := c.y1 - M, x2 := c.x2 + M, y2 := c.y2 + M } ∧
    (snapshot_prepare env obj cf
        (lv_snapshot_reshape_draw_buf env obj s).world).world.layer.buf_area =
      { x1 := c.x1 - M, y1 := c.y1 - M, x2 := c.x2 + M, y2 := c.y2 + M } ∧
    (snapshot_prepare env obj cf
        (lv_snapshot_reshape_draw_buf env obj s).world).world.layer._clip_area =
      { x1 := c.x1 - M, y1 := c.y1 - M, x2 := c.x2 + M, y2 := c.y2 + M } ∧
    (snapshot_prepare env obj cf
        (lv_snapshot_reshape_draw_buf env obj s).world).world.layer.phy_clip_area =
      { x1 := c.x1 - M, y1 := c.y1 - M, x2 := c.x2 + M, y2 := c.y2 + M } ∧
    (snapshot_prepare env obj cf
        (lv_snapshot_reshape_draw_buf env obj s).world).world.layer.draw_buf =
      some lv_draw_buf_ref.target ∧
    (snapshot_prepare env obj cf
        (lv_snapshot_reshape_draw_buf env obj s).world).world.layer.color_format = cf ∧
    (snapshot_prepare env obj cf
        (lv_snapshot_reshape_draw_buf env obj s).world).world.layer_head
          (env.lv_obj_get_display obj) = some lv_layer_ref.snapshot ∧
    (snapshot_prepare env obj cf
        (lv_snapshot_reshape_draw_buf env obj s).world).world.disp_refreshing =
      some (env.lv_obj_get_display obj) ∧
    (∀ fuel r, lv_snapshot_take_to_draw_buf env fuel obj cf s = some r →
      r.ret = lv_result_t.LV_RESULT_OK ∧
      ∃ rr dr,
        snapshot_render env fuel obj
          (snapshot_prepare env obj cf (lv_snapshot_reshape_draw_buf env obj s).world).top_obj
          (snapshot_prepare env obj cf (lv_snapshot_reshape_draw_buf env obj s).world).world
            = some rr ∧
        snapshot_drain env fuel rr.1 = some dr) := by
  have hx : c.x1 - M + (W + 2 * M) - 1 = c.x2 + M := by rw [hWc]; ring
  have hy : c.y1 - M + (H + 2 * M) - 1 = c.y2 + M := by rw [hHc]; ring
  obtain ⟨_, _, _, hhead, hdisp⟩ :=
    prepare_saved env obj cf (lv_snapshot_reshape_draw_buf env obj s).world
  obtain ⟨harea, hlayer⟩ :=
    prepare_layer env obj cf (lv_snapshot_reshape_draw_buf env obj s).world
  rw [reshape_world_ext, hc, hM] at harea
  have htrace : (lv_snapshot_reshape_draw_buf env obj s).trace =
      [Call.lv_obj_update_layout obj,
       Call.lv_draw_buf_reshape lv_color_format_t.LV_COLOR_FORMAT_UNKNOWN
         (W + 2 * M) (H + 2 * M) LV_STRIDE_AUTO] := by
    by_cases hz : env.lv_obj_get_width (env.lv_obj_update_layout obj s.ext) obj +
            env.lv_obj_get_ext_draw_size (env.lv_obj_update_layout obj s.ext) obj * 2 = 0 ∨
          env.lv_obj_get_height (env.lv_obj_update_layout obj s.ext) obj +
            env.lv_obj_get_ext_draw_size (env.lv_obj_update_layout obj s.ext) obj * 2 = 0
    · rw [reshape_draw_buf_of_zero env obj s hz] at hres
      exact absurd hres (by simp)
    · rw [reshape_draw_buf_of_nonzero env obj s hz, hW, hH, hM, mul_comm M 2]
  have hrun : ∀ fuel r, lv_snapshot_take_to_draw_buf env fuel obj cf s = some r →
      r.ret = lv_result_t.LV_RESULT_OK ∧
      ∃ rr dr,
        snapshot_render env fuel obj
          (snapshot_prepare env obj cf (lv_snapshot_reshape_draw_buf env obj s).world).top_obj
          (snapshot_prepare env obj cf (lv_snapshot_reshape_draw_buf env obj s).world).world
            = some rr ∧
        snapshot_drain env fuel rr.1 = some dr := by
    intro fuel r hr
    rcases take_to_draw_buf_cases env fuel obj cf s r hr with ⟨h1, _⟩ | ⟨_, hne, _⟩ |
      ⟨_, _, rr, dr, hrr, hdr, h3⟩
    · rw [hcf] at h1
      exact absurd h1 (by simp)
    · exact absurd hres hne
    · exact ⟨by rw [h3], rr, dr, hrr, hdr⟩
  refine ⟨htrace, ?_, ?_, ?_, ?_, ?_, ?_, ?_, hdisp, hrun⟩
  · rw [harea]
    rfl
  · rw [hlayer, harea, hbw, hbh]
    simp only [lv_area_increase, hx, hy]
  · rw [hlayer, harea]
    rfl
  · rw [hlayer, harea]
    rfl
  · rw [hlayer]
  · rw [hlayer]
  · rw [hhead, Function.update_same]

/-- C10 on the concrete scene: the node occupies (10, 20)-(59, 39) with margin 4, and the
installed layer covers (6, 16)-(63, 43). -/
theorem installed_layer_areas_witness :
    (snapshot_prepare (demoEnv 50 20 4 (some 1)) 1 lv_color_format_t.LV_COLOR_FORMAT_A8
      (lv_snapshot_reshape_draw_buf (demoEnv 50 20 4 (some 1)) 1 demoWorld).world).world.layer.buf_area
      = { x1 := 6, y1 := 16, x2 := 63, y2 := 43 } ∧
    (snapshot_prepare (demoEnv 50 20 4 (some 1)) 1 lv_color_format_t.LV_COLOR_FORMAT_A8
      (lv_snapshot_reshape_draw_buf (demoEnv 50 20 4 (some 1)) 1 demoWorld).world).world.layer._clip_area
      = { x1 := 6, y1 := 16, x2 := 63, y2 := 43 } ∧
    (snapshot_prepare (demoEnv 50 20 4 (some 1)) 1 lv_color_format_t.LV_COLOR_FORMAT_A8
      (lv_snapshot_reshape_draw_buf (demoEnv 50 20 4 (some 1)) 1 demoWorld).world).world.layer.phy_clip_area
      = { x1 := 6, y1 := 16, x2 := 63, y2 := 43 } :=
  have h := installed_layer_areas (demoEnv 50 20 4 (some 1)) 1
    lv_color_format_t.LV_COLOR_FORMAT_A8 demoWorld 50 20 4 ⟨10, 20, 59, 39⟩
    rfl rfl rfl rfl rfl (by decide) (by decide) rfl rfl rfl
  ⟨h.2.2.1, h.2.2.2.1, h.2.2.2.2.1⟩

/-! ### Claims on the render phase -/

/-- C7: in a capture that returns `LV_RESULT_OK` and in which the resolver answers the
capture target itself, or `NULL`, the render calls are exactly one `lv_obj_redraw` of the
target: there is no `lv_obj_refr` call and no post-draw event. -/
theorem direct_redraw_only {ε : Type} (env : Env ε) (fuel : Nat) (obj : Obj)
    (cf : lv_color_format_t) (s : World ε) (r : Run ε lv_result_t)
    (htop : resolver_answer env obj s = some obj ∨ resolver_answer env obj s = none)
    (hr : lv_snapshot_take_to_draw_buf env fuel obj cf s = some r)
    (hok : r.ret = lv_result_t.LV_RESULT_OK) :
    render_calls r.trace = [Call.lv_obj_redraw obj] ∧
    r.trace.filter is_refr_call = [] ∧
    hook_calls r.trace = [] := by
  obtain ⟨rr, hrr, hrc⟩ := take_ok_render_calls env fuel obj cf s r hr hok
  have hg : (resolver_answer env obj s).getD obj = obj := by
    rcases htop with h | h <;> rw [h] <;> rfl
  rw [hg] at hrr
  simp only [snapshot_render, if_true] at hrr
  cases hrr
  refine ⟨hrc, ?_, ?_⟩
  · rw [← refr_calls_render_calls, hrc]
    rfl
  · rw [← hook_calls_render_calls, hrc]
    rfl

/-- C7 on the concrete scene, resolver answering the target. -/
theorem direct_redraw_only_witness :
    ∃ r, lv_snapshot_take_to_draw_buf (demoEnv 50 20 4 (some 1)) 5 1
        lv_color_format_t.LV_COLOR_FORMAT_A8 demoWorld = some r ∧
      render_calls r.trace = [Call.lv_obj_redraw 1] ∧
      r.trace.filter is_refr_call = [] ∧ hook_calls r.trace = [] := by
  cases hr : lv_snapshot_take_to_draw_buf (demoEnv 50 20 4 (some 1)) 5 1
      lv_color_format_t.LV_COLOR_FORMAT_A8 demoWorld with
  | none =>
    have hs : (lv_snapshot_take_to_draw_buf (demoEnv 50 20 4 (some 1)) 5 1
      lv_color_format_t.LV_COLOR_FORMAT_A8 demoWorld).isSome = true := rfl
    rw [hr] at hs
    exact absurd hs (by simp)
  | some r =>
    have hok : (lv_snapshot_take_to_draw_buf (demoEnv 50 20 4 (some 1)) 5 1
      lv_color_format_t.LV_COLOR_FORMAT_A8 demoWorld).map (fun x => x.ret) =
        some lv_result_t.LV_RESULT_OK := rfl
    rw [hr] at hok
    exact ⟨r, rfl, direct_redraw_only (demoEnv 50 20 4 (some 1)) 5 1
      lv_color_format_t.LV_COLOR_FORMAT_A8 demoWorld r (Or.inl rfl) hr (Option.some.inj hok)⟩

/-- C8, as amended: in a capture that returns `LV_RESULT_OK` and whose redraw root `top`
differs from the capture target, the post-draw events (begin, content, end) are sent once
to each node of the parent chain above `top`, bottom-up, starting with the parent of `top`
and ending with the capture target itself when the target is an ancestor of `top` (with
the root of the tree otherwise); such a chain exists for every run that returns; when `top` lies two levels below the target, the events
go to exactly two nodes, the intermediate ancestor and then the target. -/
theorem hooks_along_parent_chain {ε : Type} (env : Env ε) (fuel : Nat) (obj : Obj)
    (cf : lv_color_format_t) (s : World ε) (r : Run ε lv_result_t) (top : Obj)
    (htop : resolver_answer env obj s = some top) (hne : top ≠ obj)
    (hr : lv_snapshot_take_to_draw_buf env fuel obj cf s = some r)
    (hok : r.ret = lv_result_t.LV_RESULT_OK) :
    (∃ ps, is_parent_chain env obj top ps = true) ∧
    (∀ ps, is_parent_chain env obj top ps = true → hook_calls r.trace = chain_hooks ps) ∧
    (∀ m, env.lv_obj_get_parent top = some m → m ≠ obj →
      env.lv_obj_get_parent m = some obj →
      hook_calls r.trace = post_draw_events m ++ post_draw_events obj) := by
  have key : ∀ ps, is_parent_chain env obj top ps = true →
      hook_calls r.trace = chain_hooks ps := by
    intro ps hch
    rw [← hook_calls_render_calls,
      take_ok_walk_calls env fuel obj cf s r top ps htop hne hch hr hok]
    have : hook_calls (Call.lv_obj_refr top :: walk_calls env top ps) =
        hook_calls (walk_calls env top ps) := rfl
    rw [this, hook_calls_walk_calls]
  refine ⟨take_ok_chain_exists env fuel obj cf s r top htop hne hr hok, key, ?_⟩
  intro m hm hmo hmp
  have hch : is_parent_chain env obj top [m, obj] = true := by
    simp [is_parent_chain, hne, hm, hmo, hmp]
  rw [key _ hch]
  simp [chain_hooks]

/-- C9: in a capture that returns `LV_RESULT_OK` and whose redraw root `top` differs from
the capture target, the render calls are the refresh of `top` followed, level by level
along the parent chain (which exists for every such run), by the refresh of the children
of the parent of that level whose index exceeds the index of the border child (the node
visited just before), in increasing index order, and then by the three post-draw events of
that parent; nothing at or before the index of the border is refreshed. -/
theorem younger_siblings_refreshed {ε : Type} (env : Env ε) (fuel : Nat) (obj : Obj)
    (cf : lv_color_format_t) (s : World ε) (r : Run ε lv_result_t) (top : Obj)
    (htop : resolver_answer env obj s = some top) (hne : top ≠ obj)
    (hr : lv_snapshot_take_to_draw_buf env fuel obj cf s = some r)
    (hok : r.ret = lv_result_t.LV_RESULT_OK) :
    (∃ ps, is_parent_chain env obj top ps = true) ∧
    (∀ ps, is_parent_chain env obj top ps = true →
      render_calls r.trace = Call.lv_obj_refr top :: walk_calls env top ps) ∧
    (∀ border_p parent, level_calls env border_p parent =
      ((env.children parent).drop ((env.children parent).indexOf border_p + 1)).map
        Call.lv_obj_refr ++ post_draw_events parent) ∧
    (∀ border_p parent i, (younger_siblings (env.children parent) border_p)[i]? =
      (env.children parent)[(env.children parent).indexOf border_p + 1 + i]?) :=
  ⟨take_ok_chain_exists env fuel obj cf s r top htop hne hr hok,
   fun ps hch => take_ok_walk_calls env fuel obj cf s r top ps htop hne hch hr hok,
   fun _ _ => rfl,
   fun _ _ _ => younger_siblings_getElem_opt _ _ _⟩

/-! ### Claims on the allocating entry point and on the legacy entry point -/

/-- C5: a call of `lv_snapshot_take` that returns either returns `NULL`, or returns the
buffer it allocated, after a capture into that buffer that returned `LV_RESULT_OK`.  Along
the calls it made, buffers created minus buffers destroyed is 1 when a buffer is returned
and 0 when `NULL` is returned; a `NULL` return after a successful allocation comes with
exactly one `lv_draw_buf_destroy`, made last, and otherwise there is none.  When the
allocation fails or the format is rejected the call returns whatever the fuel, and it
returns for every large enough fuel when the scene tree is acyclic and the dispatcher
makes progress. -/
theorem take_buffer_balance {ε : Type} (env : Env ε) (fuel : Nat) (obj : Obj)
    (cf : lv_color_format_t) (s : World ε) :
    (∀ r, lv_snapshot_take env fuel obj cf s = some r →
      (r.ret = none ∨
        ∃ b r1, (lv_snapshot_create_draw_buf env obj cf s).ret = some b ∧
          lv_snapshot_take_to_draw_buf env fuel obj cf
            { (lv_snapshot_create_draw_buf env obj cf s).world with draw_buf := b } = some r1 ∧
          r1.ret = lv_result_t.LV_RESULT_OK ∧ r.ret = some r1.world.draw_buf) ∧
      buf_balance r.trace = (if r.ret.isSome = true then 1 else 0) ∧
      (r.ret.isSome = true → destroy_count r.trace = 0) ∧
      (r.ret = none → (lv_snapshot_create_draw_buf env obj cf s).ret = none →
        destroy_count r.trace = 0) ∧
      (r.ret = none → (lv_snapshot_create_draw_buf env obj cf s).ret ≠ none →
        destroy_count r.trace = 1 ∧ r.trace.getLast? = some Call.lv_draw_buf_destroy)) ∧
    ((lv_snapshot_create_draw_buf env obj cf s).ret = none ∨ cf_supported cf = false →
      ∃ r, lv_snapshot_take env fuel obj cf s = some r ∧ r.ret = none) ∧
    (Acyclic env → DispatchProgress env →
      ∃ N, ∀ fuel2, N ≤ fuel2 → ∃ r, lv_snapshot_take env fuel2 obj cf s = some r) := by
  refine ⟨?_, ?_, ?_⟩
  · intro r hr
    obtain ⟨hcb, hcd⟩ := create_calls env obj cf s
    rcases take_cases env fuel obj cf s r hr with ⟨hc, h⟩ | ⟨b, r1, hc, h1, h⟩
    · subst h
      rw [hc] at hcb
      refine ⟨Or.inl rfl, hcb, fun h => absurd h (by simp), fun _ _ => hcd,
        fun _ h => absurd hc h⟩
    · have hna := take_to_draw_buf_no_alloc env fuel obj cf _ r1 h1
      have hb1 := buf_balance_of_no_alloc _ hna
      have hd1 := destroy_count_of_no_alloc _ hna
      rw [hc] at hcb
      simp only [Option.isSome_some, if_true] at hcb
      rcases h with ⟨hne, h⟩ | ⟨hok, h⟩
      · subst h
        refine ⟨Or.inl rfl, ?_, fun h => absurd h (by simp), fun _ h => ?_, fun _ _ => ⟨?_, ?_⟩⟩
        · simp only [buf_balance_append, hcb, hb1]
          simp [buf_balance]
        · rw [hc] at h
          exact absurd h (by simp)
        · unfold destroy_count at hcd hd1 ⊢
          simp only [List.count_append, hcd, hd1]
          simp
        · simp
      · subst h
        refine ⟨Or.inr ⟨b, r1, hc, h1, hok, rfl⟩, ?_, fun _ => ?_, fun h => absurd h (by simp),
          fun h => absurd h (by simp)⟩
        · simp only [buf_balance_append, hcb, hb1]
          simp
        · unfold destroy_count at hcd hd1 ⊢
          simp only [List.count_append, hcd, hd1]
  · intro h
    cases hc : (lv_snapshot_create_draw_buf env obj cf s).ret with
    | none =>
      exact ⟨{ ret := none, world := (lv_snapshot_create_draw_buf env obj cf s).world,
               trace := (lv_snapshot_create_draw_buf env obj cf s).trace },
        by simp only [lv_snapshot_take, hc], rfl⟩
    | some b =>
      rcases h with h | h
      · rw [hc] at h
        exact absurd h (by simp)
      · refine ⟨{ ret := none,
                  world := { (lv_snapshot_create_draw_buf env obj cf s).world with
                    draw_buf := b },
                  trace := (lv_snapshot_create_draw_buf env obj cf s).trace ++
                    [Call.LV_LOG_WARN LogMsg.not_supported_color_format] ++
                    [Call.lv_draw_buf_destroy] }, ?_, rfl⟩
        simp only [lv_snapshot_take, hc, take_to_draw_buf_of_unsupported env fuel obj cf _ h]
        simp
  · intro ha hp
    cases hc : (lv_snapshot_create_draw_buf env obj cf s).ret with
    | none =>
      exact ⟨0, fun fuel2 _ =>
        ⟨{ ret := none, world := (lv_snapshot_create_draw_buf env obj cf s).world,
           trace := (lv_snapshot_create_draw_buf env obj cf s).trace },
         by simp only [lv_snapshot_take, hc]⟩⟩
    | some b =>
      obtain ⟨N, hN⟩ := take_to_draw_buf_returns env obj cf
        { (lv_snapshot_create_draw_buf env obj cf s).world with draw_buf := b } ha hp
      refine ⟨N, fun fuel2 hf => ?_⟩
      obtain ⟨r1, hr1⟩ := hN fuel2 hf
      simp only [lv_snapshot_take, hc, hr1]
      split
      · exact ⟨_, rfl⟩
      · exact ⟨_, rfl⟩

/-- C6: `lv_snapshot_take_to_buf` runs `lv_snapshot_take_to_draw_buf` on the wrapper that
`lv_draw_buf_init` builds with size 1 by 1 over the memory of the caller, and returns exactly
when that capture returns, with the same result.  When the result is `LV_RESULT_OK` the
descriptor of the caller is overwritten with that of the wrapper, otherwise it is left as
it was.  If the render, event, dispatch and clear functions keep the buffer header and a
successful reshape stores the size it was asked for, the width and height of the descriptor
are the computed size.  On the concrete scene, a 64-byte buffer, an 8-bit single-channel
format, an 8 by 8 node and margin 0 give `LV_RESULT_OK` and width 8, height 8. -/
theorem legacy_shim {ε : Type} (env : Env ε) (fuel : Nat) (obj : Obj)
    (cf : lv_color_format_t) (dsc : lv_image_dsc_t) (buf : List Nat) (buf_size : Nat)
    (s : World ε) :
    (∀ r1, lv_snapshot_take_to_draw_buf env fuel obj cf
        { s with draw_buf := env.lv_draw_buf_init 1 1 cf buf_size buf buf_size } = some r1 →
      ∃ r, lv_snapshot_take_to_buf env fuel obj cf dsc buf buf_size s = some r ∧
        r.ret.1 = r1.ret ∧ r.world = r1.world ∧
        (r1.ret = lv_result_t.LV_RESULT_OK → r.ret.2 = dsc_of_draw_buf r1.world.draw_buf) ∧
        (r1.ret ≠ lv_result_t.LV_RESULT_OK → r.ret.2 = dsc)) ∧
    (lv_snapshot_take_to_draw_buf env fuel obj cf
        { s with draw_buf := env.lv_draw_buf_init 1 1 cf buf_size buf buf_size } = none →
      lv_snapshot_take_to_buf env fuel obj cf dsc buf buf_size s = none) ∧
    (∀ r, lv_snapshot_take_to_buf env fuel obj cf dsc buf buf_size s = some r →
      r.ret.1 = lv_result_t.LV_RESULT_OK →
      Preserves env (fun w => w.draw_buf.header) →
      (∀ b, (env.lv_draw_buf_clear b).header = b.header) →
      (∀ b c w h st, (env.lv_draw_buf_reshape b c w h st).2 = true →
        (env.lv_draw_buf_reshape b c w h st).1.header.w = w ∧
        (env.lv_draw_buf_reshape b c w h st).1.header.h = h) →
      r.ret.2.header.w =
        env.lv_obj_get_width (env.lv_obj_update_layout obj s.ext) obj +
          2 * env.lv_obj_get_ext_draw_size (env.lv_obj_update_layout obj s.ext) obj ∧
      r.ret.2.header.h =
        env.lv_obj_get_height (env.lv_obj_update_layout obj s.ext) obj +
          2 * env.lv_obj_get_ext_draw_size (env.lv_obj_update_layout obj s.ext) obj) ∧
    (lv_snapshot_take_to_buf (demoEnv 8 8 0 (some 1)) 2 1 lv_color_format_t.LV_COLOR_FORMAT_L8
        demoDsc (List.replicate 64 0) 64 demoWorld).map
      (fun r => (r.ret.1, r.ret.2.header.w, r.ret.2.header.h)) =
        some (lv_result_t.LV_RESULT_OK, 8, 8) ∧
    (lv_snapshot_take_to_buf (demoEnv 8 8 0 (some 1)) 2 1 lv_color_format_t.LV_COLOR_FORMAT_A8
        demoDsc (List.replicate 64 0) 64 demoWorld).map
      (fun r => (r.ret.1, r.ret.2.header.w, r.ret.2.header.h)) =
        some (lv_result_t.LV_RESULT_OK, 8, 8) := by
  refine ⟨?_, ?_, ?_, by decide, by decide⟩
  · intro r1 h1
    refine ⟨{ ret := (r1.ret, if r1.ret = lv_result_t.LV_RESULT_OK
                  then dsc_of_draw_buf r1.world.draw_buf else dsc),
              world := r1.world,
              trace := Call.LV_LOG_WARN LogMsg.deprecated_use_take_to_draw_buf ::
                Call.lv_draw_buf_init 1 1 cf buf_size buf_size :: r1.trace },
      by simp only [lv_snapshot_take_to_buf, h1], rfl, rfl, ?_, ?_⟩
    · intro hok
      simp only [hok, if_true]
    · intro hne
      simp only [hne, if_false]
  · intro h1
    simp only [lv_snapshot_take_to_buf, h1]
  · intro r hr hok hf hclear hresh
    cases h1 : lv_snapshot_take_to_draw_buf env fuel obj cf
        { s with draw_buf := env.lv_draw_buf_init 1 1 cf buf_size buf buf_size } with
    | none => simp [lv_snapshot_take_to_buf, h1] at hr
    | some r1 =>
      simp only [lv_snapshot_take_to_buf, h1] at hr
      have hr := (Option.some.inj hr).symm
      subst hr
      simp only at hok
      simp only [hok, if_true, dsc_of_draw_buf]
      have hh := take_ok_header env fuel obj cf _ r1 h1 hok hf hclear
      have hres : (lv_snapshot_reshape_draw_buf env obj
          { s with draw_buf := env.lv_draw_buf_init 1 1 cf buf_size buf buf_size }).ret =
            lv_result_t.LV_RESULT_OK := by
        rcases take_to_draw_buf_cases env fuel obj cf _ r1 h1 with ⟨_, h⟩ | ⟨_, hne, h⟩ |
          ⟨_, h, _⟩
        · rw [h] at hok
          exact absurd hok (by simp)
        · rw [h] at hok
          exact absurd hok hne
        · exact h
      have hsz := reshape_ok_size env obj _ hres hresh
      rw [hh, hsz.1, hsz.2]
      constructor <;> ring

/-- C6 on the concrete scene with a buffer one byte short: the capture and the legacy
entry point both return `LV_RESULT_INVALID` and the descriptor keeps its value. -/
theorem legacy_shim_witness :
    ∃ r, lv_snapshot_take_to_buf (demoEnv 8 8 0 (some 1)) 2 1
        lv_color_format_t.LV_COLOR_FORMAT_L8 demoDsc (List.replicate 63 0) 63 demoWorld
          = some r ∧
      r.ret.1 = lv_result_t.LV_RESULT_INVALID ∧ r.ret.2 = demoDsc := by
  cases h1 : lv_snapshot_take_to_draw_buf (demoEnv 8 8 0 (some 1)) 2 1
      lv_color_format_t.LV_COLOR_FORMAT_L8 demoLegacyWorld with
  | none =>
    have hs : (lv_snapshot_take_to_draw_buf (demoEnv 8 8 0 (some 1)) 2 1
      lv_color_format_t.LV_COLOR_FORMAT_L8 demoLegacyWorld).isSome = true := rfl
    rw [h1] at hs
    exact absurd hs (by simp)
  | some r1 =>
    have hret : (lv_snapshot_take_to_draw_buf (demoEnv 8 8 0 (some 1)) 2 1
      lv_color_format_t.LV_COLOR_FORMAT_L8 demoLegacyWorld).map
        (fun x => x.ret) = some lv_result_t.LV_RESULT_INVALID := rfl
    rw [h1] at hret
    have hinv : r1.ret = lv_result_t.LV_RESULT_INVALID := Option.some.inj hret
    obtain ⟨r, hr, hres, _, _, hkeep⟩ := (legacy_shim (demoEnv 8 8 0 (some 1)) 2 1
      lv_color_format_t.LV_COLOR_FORMAT_L8 demoDsc (List.replicate 63 0) 63 demoWorld).1 r1 h1
    exact ⟨r, hr, hres.trans hinv, hkeep (by rw [hinv]; simp)⟩

/-! ### The claims on the concrete scene -/

/-- C4 on the concrete scene: margin 4, width 50, height 20 give a request for 58 by 28 in
both sizing functions. -/
theorem buffer_dimensions_witness :
    (lv_snapshot_create_draw_buf (demoEnv 50 20 4 (some 1)) 1
        lv_color_format_t.LV_COLOR_FORMAT_A8 demoWorld).trace =
      [Call.lv_obj_update_layout 1,
       Call.lv_draw_buf_create 58 28 lv_color_format_t.LV_COLOR_FORMAT_A8 LV_STRIDE_AUTO true] ∧
    (lv_snapshot_reshape_draw_buf (demoEnv 50 20 4 (some 1)) 1 demoWorld).trace =
      [Call.lv_obj_update_layout 1,
       Call.lv_draw_buf_reshape lv_color_format_t.LV_COLOR_FORMAT_UNKNOWN 58 28 LV_STRIDE_AUTO] :=
  have h := buffer_dimensions (demoEnv 50 20 4 (some 1)) 1
    lv_color_format_t.LV_COLOR_FORMAT_A8 demoWorld 50 20 4 rfl rfl rfl (by decide) (by decide)
  ⟨h.2.1, h.2.2.1⟩

/-- C2 as stated fails: a node of resolved width 0, height 20 and margin 4 gets an 8 by 28
buffer from `lv_snapshot_create_draw_buf`, and `lv_snapshot_take_to_draw_buf` returns
`LV_RESULT_OK` after reshaping the supplied 1 by 1 buffer to 8 by 28. -/
theorem zero_width_with_margin_counterexample :
    (demoEnv 0 20 4 (some 1)).lv_obj_get_width
        ((demoEnv 0 20 4 (some 1)).lv_obj_update_layout 1 demoWorld.ext) 1 = 0 ∧
    (lv_snapshot_create_draw_buf (demoEnv 0 20 4 (some 1)) 1
        lv_color_format_t.LV_COLOR_FORMAT_A8 demoWorld).ret =
      some { header := { cf := lv_color_format_t.LV_COLOR_FORMAT_A8, w := 8, h := 28,
                         stride := 8, flags := 0 },
             data_size := 224, data := [] } ∧
    (lv_snapshot_take_to_draw_buf (demoEnv 0 20 4 (some 1)) 5 1
        lv_color_format_t.LV_COLOR_FORMAT_A8 demoWorld).map
      (fun r => (r.ret, r.world.draw_buf.header.w, r.world.draw_buf.header.h)) =
        some (lv_result_t.LV_RESULT_OK, 8, 28) ∧
    (demoWorld.draw_buf.header.w, demoWorld.draw_buf.header.h) = (1, 1) := by
  decide

/-- C2, as amended, on the concrete scene: width 0 and margin 0. -/
theorem degenerate_size_rejected_witness :
    (lv_snapshot_create_draw_buf (demoEnv 0 20 0 (some 1)) 1
        lv_color_format_t.LV_COLOR_FORMAT_A8 demoWorld).ret = none ∧
    ∃ r, lv_snapshot_take_to_draw_buf (demoEnv 0 20 0 (some 1)) 5 1
        lv_color_format_t.LV_COLOR_FORMAT_A8 demoWorld = some r ∧
      r.ret = lv_result_t.LV_RESULT_INVALID ∧ r.world.draw_buf = demoWorld.draw_buf := by
  have h := degenerate_size_rejected (demoEnv 0 20 0 (some 1)) 5 1
    lv_color_format_t.LV_COLOR_FORMAT_A8 demoWorld 0 20 0 rfl rfl rfl (Or.inl (by decide))
  obtain ⟨r, hr, hret, hbuf, _⟩ := h.2.2.2.2
  exact ⟨h.1, r, hr, hret, hbuf⟩

/-- C3 on the concrete scene: format code 99 is rejected at once, and the 8-bit alpha
format passes the gate. -/
theorem format_gate_witness :
    lv_snapshot_take_to_draw_buf (demoEnv 50 20 4 (some 1)) 5 1 (lv_color_format_t.other 99)
        demoWorld =
      some { ret := lv_result_t.LV_RESULT_INVALID, world := demoWorld,
             trace := [Call.LV_LOG_WARN LogMsg.not_supported_color_format] } ∧
    cf_supported lv_color_format_t.LV_COLOR_FORMAT_A8 = true :=
  ⟨(format_gate (demoEnv 50 20 4 (some 1)) 5 1 (lv_color_format_t.other 99) demoWorld).1
      (by decide),
   ((format_gate (demoEnv 50 20 4 (some 1)) 5 1 lv_color_format_t.LV_COLOR_FORMAT_A8
      demoWorld).2 (by decide)).1⟩

/-- C5 on the concrete scene: with format code 99 the buffer is allocated, the capture is
rejected, the buffer is destroyed once and `NULL` is returned. -/
theorem take_buffer_balance_witness :
    ∃ r, lv_snapshot_take (demoEnv 8 8 0 (some 1)) 5 1 (lv_color_format_t.other 99)
        demoWorld = some r ∧
      r.ret = none ∧ buf_balance r.trace = 0 ∧ destroy_count r.trace = 1 := by
  obtain ⟨r, hr⟩ := Option.isSome_iff_exists.1
    (rfl : (lv_snapshot_take (demoEnv 8 8 0 (some 1)) 5 1 (lv_color_format_t.other 99)
      demoWorld).isSome = true)
  have hnone : (lv_snapshot_take (demoEnv 8 8 0 (some 1)) 5 1 (lv_color_format_t.other 99)
      demoWorld).map (fun x => x.ret) = some none := rfl
  rw [hr] at hnone
  have hret : r.ret = none := Option.some.inj hnone
  have h := (take_buffer_balance (demoEnv 8 8 0 (some 1)) 5 1 (lv_color_format_t.other 99)
    demoWorld).1 r hr
  refine ⟨r, hr, hret, ?_, (h.2.2.2.2 hret (by decide)).1⟩
  rw [h.2.1, hret]
  rfl

/-- C8 as stated fails.  Capturing object 1 with redraw root 5, two levels below it, the
run returns `LV_RESULT_OK` and sends the post-draw events to object 3 and then to object 1,
the capture target itself.  Capturing object 5 when the resolver answers object 1, two
levels above it, the events go to the screen 0 only, a single node that does not lie
between the two. -/
theorem hooks_reach_capture_target_counterexample :
    resolver_answer (demoEnv 50 20 4 (some 5)) 1 demoWorld = some 5 ∧
    (lv_snapshot_take_to_draw_buf (demoEnv 50 20 4 (some 5)) 5 1
        lv_color_format_t.LV_COLOR_FORMAT_A8 demoWorld).map
      (fun r => (r.ret, hook_calls r.trace,
        decide (Call.lv_obj_send_event 1 lv_event_code_t.LV_EVENT_DRAW_POST ∈ r.trace))) =
        some (lv_result_t.LV_RESULT_OK, post_draw_events 3 ++ post_draw_events 1, true) ∧
    resolver_answer (demoEnv 50 20 4 (some 1)) 5 demoWorld = some 1 ∧
    (lv_snapshot_take_to_draw_buf (demoEnv 50 20 4 (some 1)) 5 5
        lv_color_format_t.LV_COLOR_FORMAT_A8 demoWorld).map
      (fun r => (r.ret, hook_calls r.trace)) =
        some (lv_result_t.LV_RESULT_OK, post_draw_events 0) := by
  decide

/-- C8, as amended, on the concrete scene: object 5 lies two levels below the capture
target 1, and the events go to object 3 and then to object 1. -/
theorem hooks_along_parent_chain_witness :
    ∃ r, lv_snapshot_take_to_draw_buf (demoEnv 50 20 4 (some 5)) 5 1
        lv_color_format_t.LV_COLOR_FORMAT_A8 demoWorld = some r ∧
      hook_calls r.trace = post_draw_events 3 ++ post_draw_events 1 := by
  obtain ⟨r, hr⟩ := Option.isSome_iff_exists.1
    (rfl : (lv_snapshot_take_to_draw_buf (demoEnv 50 20 4 (some 5)) 5 1
      lv_color_format_t.LV_COLOR_FORMAT_A8 demoWorld).isSome = true)
  have hok : (lv_snapshot_take_to_draw_buf (demoEnv 50 20 4 (some 5)) 5 1
      lv_color_format_t.LV_COLOR_FORMAT_A8 demoWorld).map (fun x => x.ret) =
        some lv_result_t.LV_RESULT_OK := rfl
  rw [hr] at hok
  exact ⟨r, hr, (hooks_along_parent_chain (demoEnv 50 20 4 (some 5)) 5 1
    lv_color_format_t.LV_COLOR_FORMAT_A8 demoWorld r 5 rfl (by decide) hr
    (Option.some.inj hok)).2.2 3 rfl (by decide) rfl⟩

/-- C9 on the concrete scene: with redraw root 5 under capture target 1, object 6 (after 5
among the children of 3) and object 4 (after 3 among the children of 1) are refreshed, each
before the events of its level; objects 2, 3 and 5 are not refreshed by the walk. -/
theorem younger_siblings_refreshed_witness :
    ∃ r, lv_snapshot_take_to_draw_buf (demoEnv 50 20 4 (some 5)) 5 1
        lv_color_format_t.LV_COLOR_FORMAT_A8 demoWorld = some r ∧
      render_calls r.trace =
        Call.lv_obj_refr 5 :: Call.lv_obj_refr 6 :: (post_draw_events 3 ++
          Call.lv_obj_refr 4 :: post_draw_events 1) := by
  obtain ⟨r, hr⟩ := Option.isSome_iff_exists.1
    (rfl : (lv_snapshot_take_to_draw_buf (demoEnv 50 20 4 (some 5)) 5 1
      lv_color_format_t.LV_COLOR_FORMAT_A8 demoWorld).isSome = true)
  have hok : (lv_snapshot_take_to_draw_buf (demoEnv 50 20 4 (some 5)) 5 1
      lv_color_format_t.LV_COLOR_FORMAT_A8 demoWorld).map (fun x => x.ret) =
        some lv_result_t.LV_RESULT_OK := rfl
  rw [hr] at hok
  exact ⟨r, hr, (younger_siblings_refreshed (demoEnv 50 20 4 (some 5)) 5 1
    lv_color_format_t.LV_COLOR_FORMAT_A8 demoWorld r 5 rfl (by decide) hr
    (Option.some.inj hok)).2.1 [3, 1] (by decide)⟩

end LvSnapshot
